import Mathlib

/-!
# DHT12 polling state machine (`src/main.c`)

A shallow embedding of `fsm_twi_scanner`, the function run by the
Timer/Counter1 overflow interrupt.  The globals it reads and writes
(`twi_state`, `Meteo_values`, the I/O register `PORTB`) are gathered in the
record `Machine`; one call of the function is the pure function
`fsm_twi_scanner : Machine → twi_reply → StepResult`.

The two-wire bus driver (`twi.h`) and the UART driver are external to
`main.c`.  Every call that the function makes to them is recorded, in program
order, in the `calls` trace of the result; the values that the bus driver
hands back during one call of `fsm_twi_scanner` are the `twi_reply` argument.

Machine integers are natural numbers; a value stored into a `uint8_t` object
is reduced modulo `256` at the store.
-/

namespace DHT12Fsm

/-! ## Constants -/

/-- Seven-bit bus address of the sensor: `#define DHT12 0x5c` (main.c:22). -/
def DHT12 : Nat := 0x5c

/-- The two direction constants of `twi.h`, which is not among the sources:
they are parameters of the embedding. -/
structure twi_h where
  TWI_WRITE : Nat
  TWI_READ : Nat
deriving DecidableEq, Repr

/-- Bit numbers of port B as given by `<avr/io.h>`. -/
def PB3 : Nat := 3
/-- Bit number of pin PB4 in `<avr/io.h>`. -/
def PB4 : Nat := 4
/-- Bit number of pin PB5 in `<avr/io.h>`. -/
def PB5 : Nat := 5

/-- Macro `_BV(bit)` of avr-libc: `(1 << (bit))`. -/
def _BV (bit : Nat) : Nat := 1 <<< bit

/-- First enumerator of `typedef enum { IDLE_STATE = 1, HUMIDITY_STATE, TEMPERATURE_STATE,
UART_STATE } state_t` (main.c:44-50).  The enumerators are the integers
`1..4`; the variable `twi_state` is an integer, so that the `default` branch
of the switch can be modelled. -/
def IDLE_STATE : Nat := 1
/-- Second enumerator of `state_t`. -/
def HUMIDITY_STATE : Nat := 2
/-- Third enumerator of `state_t`. -/
def TEMPERATURE_STATE : Nat := 3
/-- Fourth enumerator of `state_t`. -/
def UART_STATE : Nat := 4

/-! ## Data model -/

/-- Record `struct values` (main.c:25-30): four `uint8_t` fields. -/
structure values where
  humidity_integer : Nat
  humidity_decimal : Nat
  temperature_integer : Nat
  temperature_decimal : Nat
deriving DecidableEq, Repr

/-- The globals touched by `fsm_twi_scanner`: `twi_state` (main.c:52),
`Meteo_values` (main.c:31) and the output register `PORTB`. -/
structure Machine where
  twi_state : Nat
  Meteo_values : values
  PORTB : Nat
deriving DecidableEq, Repr

/-- The program's initial globals: `twi_state = IDLE_STATE` by its
initialiser, `Meteo_values` zero as a C object of static storage; `PORTB` is
the register's value `p` when the first interrupt fires. -/
def Machine.init (p : Nat) : Machine :=
  { twi_state := IDLE_STATE, Meteo_values := ⟨0, 0, 0, 0⟩, PORTB := p }

/-- What the bus driver returns during one call of `fsm_twi_scanner`:
the status of the write-direction `twi_start`, the status of `twi_write`,
the status of the read-direction `twi_start`, and the bytes returned by
`twi_read_ack` and `twi_read_nack`.  A field is consulted only if the
corresponding call is made. -/
structure twi_reply where
  start_w : Nat
  write : Nat
  start_r : Nat
  read_ack : Nat
  read_nack : Nat
deriving DecidableEq, Repr

/-- A call made by `fsm_twi_scanner` to the external drivers, with its
arguments. -/
inductive call where
  | twi_start (address : Nat)
  | twi_write (data : Nat)
  | twi_stop
  | twi_read_ack
  | twi_read_nack
  | uart_puts (s : String)
deriving DecidableEq, Repr

/-- Outcome of one call of `fsm_twi_scanner`: the globals afterwards and the
external calls made, in program order. -/
structure StepResult where
  next : Machine
  calls : List call
deriving DecidableEq, Repr

/-! ## Register operations -/

/-- Statement `PORTB |= mask`: the `uint8_t` register is promoted to `int`, or-ed, and
the result is stored back into the 8-bit register. -/
def port_or (p mask : Nat) : Nat := (p ||| mask) % 256

/-- Statement `PORTB &= ~mask`: `mask` is an `int` (16 bits on AVR), `~mask` is its
bitwise complement, whose two's complement bit pattern is `mask ^^^ 0xFFFF`;
the conjunction is stored back into the 8-bit register. -/
def port_and_not (p mask : Nat) : Nat := (p &&& (mask ^^^ 0xFFFF)) % 256

/-! ## The state machine step -/

/-- The `UART_STATE` branch body acting on `PORTB` (main.c:201-215): three
separate `if` statements, executed one after the other on the same
`temperature_integer`. -/
def apply_output (t p : Nat) : Nat :=
  let p1 :=
    if t ≤ 28 then
      port_and_not (port_and_not (port_or p (_BV PB5)) (_BV PB3)) (_BV PB4)
    else p
  let p2 :=
    if t > 28 ∧ t < 40 then
      port_and_not (port_and_not (port_or p1 (_BV PB4)) (_BV PB5)) (_BV PB3)
    else p1
  let p3 :=
    if t ≥ 40 then
      port_and_not (port_and_not (port_or p2 (_BV PB3)) (_BV PB4)) (_BV PB5)
    else p2
  p3

/-- One call of `fsm_twi_scanner` (main.c:138-224).  `twi_status` is a
`uint8_t` local, hence the reduction modulo `256` of the returned status. -/
def fsm_twi_scanner (h : twi_h) (m : Machine) (r : twi_reply) : StepResult :=
  if m.twi_state = IDLE_STATE then
    { next := { m with twi_state := HUMIDITY_STATE }, calls := [] }
  else if m.twi_state = HUMIDITY_STATE then
    let twi_status := r.start_w % 256
    if twi_status = 0 then
      { next :=
          { m with
            Meteo_values :=
              { m.Meteo_values with
                humidity_integer := r.read_ack % 256
                humidity_decimal := r.read_nack % 256 }
            twi_state := TEMPERATURE_STATE }
        calls :=
          [ call.twi_start ((DHT12 <<< 1) + h.TWI_WRITE),
            call.twi_write 0x00,
            call.twi_stop,
            call.twi_start ((DHT12 <<< 1) + h.TWI_READ),
            call.twi_read_ack,
            call.twi_read_nack,
            call.twi_stop ] }
    else
      { next := { m with twi_state := IDLE_STATE }
        calls :=
          [ call.twi_start ((DHT12 <<< 1) + h.TWI_WRITE),
            call.uart_puts "Not connected H" ] }
  else if m.twi_state = TEMPERATURE_STATE then
    let twi_status := r.start_w % 256
    if twi_status = 0 then
      { next :=
          { m with
            Meteo_values :=
              { m.Meteo_values with
                temperature_integer := r.read_ack % 256
                temperature_decimal := r.read_nack % 256 }
            twi_state := UART_STATE }
        calls :=
          [ call.twi_start ((DHT12 <<< 1) + h.TWI_WRITE),
            call.twi_write 0x02,
            call.twi_stop,
            call.twi_start ((DHT12 <<< 1) + h.TWI_READ),
            call.twi_read_ack,
            call.twi_read_nack,
            call.twi_stop ] }
    else
      { next := { m with twi_state := IDLE_STATE }
        calls :=
          [ call.twi_start ((DHT12 <<< 1) + h.TWI_WRITE),
            call.uart_puts "Not connected T" ] }
  else if m.twi_state = UART_STATE then
    { next :=
        { m with
          PORTB := apply_output m.Meteo_values.temperature_integer m.PORTB
          twi_state := IDLE_STATE }
      calls := [] }
  else
    { next := { m with twi_state := IDLE_STATE }, calls := [] }

/-! ## Observations on a step -/

/-- Whether a call is a call to the bus driver. -/
def call.is_bus : call → Bool
  | call.uart_puts _ => false
  | _ => true

/-- The bus operations of a trace, in order. -/
def bus_ops (cs : List call) : List call := cs.filter call.is_bus

/-- Modelled from the spec: `uart_puts` is not among the sources (`uart.c` is
cut before it); by the serial transport contract `writeText(str)` a call
transmits its argument, so the text handed to the serial link by a trace is
the concatenation, in order, of the arguments of its `uart_puts` calls. -/
def uart_text : List call → String
  | [] => ""
  | call.uart_puts s :: cs => s ++ uart_text cs
  | _ :: cs => uart_text cs

/-- Test `(PORTB & _BV(bit)) != 0`: the output bit is set. -/
def pin_set (p bit : Nat) : Bool := (p &&& _BV bit) != 0

/-- Exactly one of the three output bits PB5, PB4, PB3 is set in `p`. -/
def one_led (p : Nat) : Bool :=
  (pin_set p PB5 && !pin_set p PB4 && !pin_set p PB3) ||
  (!pin_set p PB5 && pin_set p PB4 && !pin_set p PB3) ||
  (!pin_set p PB5 && !pin_set p PB4 && pin_set p PB3)

/-! ## Successive interrupts -/

/-- The globals after the first `n` timer interrupts, the bus answering the
`i`-th call of `fsm_twi_scanner` (counted from `0`) with `bus i`. -/
def run (h : twi_h) (bus : Nat → twi_reply) (m : Machine) : Nat → Machine
  | 0 => m
  | n + 1 => (fsm_twi_scanner h (run h bus m n) (bus n)).next

/-- The external calls made by the interrupt number `n` (counted from `0`). -/
def calls_at (h : twi_h) (bus : Nat → twi_reply) (m : Machine) (n : Nat) : List call :=
  (fsm_twi_scanner h (run h bus m n) (bus n)).calls

/-! ## Concrete environments used in the worked instances -/

/-- Example values of the `twi.h` direction constants. -/
def twi_h.sample : twi_h := { TWI_WRITE := 0, TWI_READ := 1 }

/-- The bus that answers the first calls of `fsm_twi_scanner` with the
replies of `rs`, in order, and every later call with `d`. -/
def bus_of (rs : List twi_reply) (d : twi_reply) : Nat → twi_reply :=
  fun i => rs.getD i d

/-- The globals on entry to the `UART_STATE` branch with temperature `t` and
register value `p`, the other fields being those of Scenario 1. -/
def Machine.at_output (t p : Nat) : Machine :=
  { twi_state := UART_STATE, Meteo_values := ⟨23, 5, t, 0⟩, PORTB := p }

/-- A reply of an acknowledging sensor delivering the bytes `a` and `b`. -/
def twi_reply.ack (a b : Nat) : twi_reply :=
  { start_w := 0, write := 0, start_r := 0, read_ack := a, read_nack := b }

/-- A reply whose write-direction `twi_start` reports the status `s`. -/
def twi_reply.nak (s : Nat) : twi_reply :=
  { start_w := s, write := 0, start_r := 0, read_ack := 0, read_nack := 0 }

/-! ## Bus discipline -/

/-- Every `twi_start` of the trace is followed, later in the trace, by a
`twi_stop`. -/
def bus_closed : List call → Bool
  | [] => true
  | call.twi_start _ :: cs => cs.contains call.twi_stop && bus_closed cs
  | _ :: cs => bus_closed cs

/-- Whether the bus is held (started and not yet stopped) once the trace has
been played, `held` saying whether it was held before. -/
def bus_held (held : Bool) : List call → Bool
  | [] => held
  | call.twi_start _ :: cs => bus_held true cs
  | call.twi_stop :: cs => bus_held false cs
  | _ :: cs => bus_held held cs

/-! ## The reporting loop (`main`, main.c:70-92) -/

/-- Buffer `char uart_string[5]` (main.c:54), represented by its size in
bytes. -/
def uart_string : Nat := 5
/-- Buffer `char uart_string2[10]` (main.c:55), represented by its size. -/
def uart_string2 : Nat := 10
/-- Buffer `char uart_string3[10]` (main.c:56), represented by its size. -/
def uart_string3 : Nat := 10
/-- Buffer `char uart_string4[10]` (main.c:57), represented by its size. -/
def uart_string4 : Nat := 10

/-- The character of the digit `d` in `itoa`: `0`..`9`, then `a`..`z`. -/
def itoa_digit (d : Nat) : Char :=
  if d < 10 then Char.ofNat (48 + d) else Char.ofNat (87 + d)

/-- The division loop of `itoa`: the digits of `u` in base `radix`, the least
significant first; `none` when the fuel runs out before the quotient is `0`. -/
def itoa_loop (radix : Nat) : Nat → Nat → Option (List Char)
  | 0, _ => none
  | fuel + 1, u =>
    if u / radix = 0 then some [itoa_digit (u % radix)]
    else (itoa_loop radix fuel (u / radix)).map (fun ds => itoa_digit (u % radix) :: ds)

/-- Modelled from the spec: `itoa` is the `<stdlib.h>` function of avr-libc,
not among the sources; the reporting format calls its result at radix `10` the
decimal rendering of the value.  These are the characters it writes before the
terminating NUL for the 16-bit `int` `val`: a radix outside `2..36` gives the
empty string; at radix `10` a negative value gives a minus sign and the digits
of its magnitude, at any other radix the value is taken as unsigned; the
digits come out of the division loop in reverse and are put in order.  A
16-bit value has at most 16 digits, hence the fuel. -/
def itoa_chars (val : Int) (radix : Nat) : Option (List Char) :=
  if radix < 2 ∨ 36 < radix then some []
  else
    let neg : Bool := decide (radix = 10 ∧ val < 0)
    let u : Nat :=
      if val < 0 then (if radix = 10 then (-val).toNat else (val + 65536).toNat)
      else val.toNat
    (itoa_loop radix 16 u).map (fun ds => (ds ++ (if neg then ['-'] else [])).reverse)

/-- The call `itoa(val, s, radix)` into a buffer of `s` bytes: the string it
leaves in the buffer, or `none` when the characters and the terminating NUL do
not fit (the C behaviour is then undefined). -/
def itoa (val : Int) (s : Nat) (radix : Nat) : Option String :=
  match itoa_chars val radix with
  | none => none
  | some out => if out.length + 1 ≤ s then some (String.mk out) else none

/-- One iteration of the forever loop of `main` (main.c:75-91): the external
calls it makes, in order.  The interrupt may change `Meteo_values` between the
four reads of the iteration, so `s1`..`s4` are the values of `Meteo_values` at
the first, second, third and fourth `itoa`. -/
def main_loop_body (s1 s2 s3 s4 : values) : Option (List call) :=
  match itoa (s1.humidity_integer : Nat) uart_string 10,
        itoa (s2.humidity_decimal : Nat) uart_string2 10,
        itoa (s3.temperature_integer : Nat) uart_string3 10,
        itoa (s4.temperature_decimal : Nat) uart_string4 10 with
  | some a, some b, some c, some d =>
    some
      [ call.uart_puts "\r\n---Humidity values---:\r\n",
        call.uart_puts a,
        call.uart_puts ".",
        call.uart_puts b,
        call.uart_puts "\r\n---Temperature values---:\r\n",
        call.uart_puts c,
        call.uart_puts ".",
        call.uart_puts d ]
  | _, _, _, _ => none

/-- The unsigned base-10 rendering of `v`, without leading zeros or sign, as
the reporting format words it. -/
def decimal (v : Nat) : String := Nat.repr v

/-! ## The output decision as one chain -/

/-- The `UART_STATE` decision written as a single `if` / `else if` / `else`
chain over the same three bodies, for comparison with `apply_output`. -/
def apply_output_chain (t p : Nat) : Nat :=
  if t ≤ 28 then
    port_and_not (port_and_not (port_or p (_BV PB5)) (_BV PB3)) (_BV PB4)
  else if t > 28 ∧ t < 40 then
    port_and_not (port_and_not (port_or p (_BV PB4)) (_BV PB5)) (_BV PB3)
  else
    port_and_not (port_and_not (port_or p (_BV PB3)) (_BV PB4)) (_BV PB5)

/-- How many of the three `if` conditions of the `UART_STATE` branch
(main.c:201, 206, 211) hold for the temperature `t`. -/
def bodies_run (t : Nat) : Nat :=
  (if t ≤ 28 then 1 else 0) + (if t > 28 ∧ t < 40 then 1 else 0) + (if t ≥ 40 then 1 else 0)

/-! ## Bit-level facts about the register operations -/

theorem and_two_pow_eq_zero_iff (p b : Nat) : (p &&& 2 ^ b = 0) ↔ p.testBit b = false := by
  constructor
  · intro h
    have h2 := congrArg (fun x => x.testBit b) h
    simpa [Nat.testBit_two_pow_self] using h2
  · intro h
    apply Nat.eq_of_testBit_eq
    intro i
    by_cases hi : b = i
    · subst hi; simp [h]
    · simp [Nat.testBit_two_pow_of_ne hi]

theorem pin_set_eq_testBit (p b : Nat) : pin_set p b = p.testBit b := by
  unfold pin_set _BV
  rw [Nat.one_shiftLeft]
  cases hb : p.testBit b
  · have h0 := (and_two_pow_eq_zero_iff p b).2 hb
    simp [h0]
  · have h0 : p &&& 2 ^ b ≠ 0 := fun hz => by
      have hf := (and_two_pow_eq_zero_iff p b).1 hz
      rw [hb] at hf
      exact Bool.noConfusion hf
    simp [h0]

theorem testBit_BV (b i : Nat) : (_BV b).testBit i = decide (b = i) := by
  unfold _BV
  rw [Nat.one_shiftLeft, Nat.testBit_two_pow]

theorem testBit_port_or (p mask i : Nat) :
    (port_or p mask).testBit i = (decide (i < 8) && (p.testBit i || mask.testBit i)) := by
  unfold port_or
  have h256 : (256 : Nat) = 2 ^ 8 := by norm_num
  rw [h256, Nat.testBit_mod_two_pow, Nat.testBit_or]

theorem testBit_port_and_not (p mask i : Nat) :
    (port_and_not p mask).testBit i =
      (decide (i < 8) && (p.testBit i && (mask.testBit i != decide (i < 16)))) := by
  unfold port_and_not
  have h256 : (256 : Nat) = 2 ^ 8 := by norm_num
  have hffff : (0xFFFF : Nat) = 2 ^ 16 - 1 := by norm_num
  rw [h256, Nat.testBit_mod_two_pow, Nat.testBit_and, Nat.testBit_xor, hffff,
    Nat.testBit_two_pow_sub_one]

/-- Bit `i` of `PORTB` after the `UART_STATE` branch, for each of the three
ranges of the temperature. -/
theorem testBit_apply_output (t p i : Nat) :
    (apply_output t p).testBit i =
      if i = PB5 then decide (t ≤ 28)
      else if i = PB4 then decide (28 < t ∧ t < 40)
      else if i = PB3 then decide (40 ≤ t)
      else (decide (i < 8) && p.testBit i) := by
  unfold apply_output
  have hlt : ∀ k : Nat, k < 8 → k < 16 := fun k hk => by omega
  by_cases h1 : t ≤ 28
  · have h2 : ¬ (t > 28 ∧ t < 40) := by omega
    have h3 : ¬ (t ≥ 40) := by omega
    have h3b : ¬ (40 ≤ t) := by omega
    simp only [h1, h2, h3, and_self, if_true, if_false]
    simp only [testBit_port_and_not, testBit_port_or, testBit_BV, PB3, PB4, PB5]
    by_cases a : i = 5
    · subst a; simp
    · by_cases b : i = 4
      · subst b; simp [h3b]
      · by_cases c : i = 3
        · subst c; simp [h3b]
        · have a2 : ¬ (5 = i) := fun e => a e.symm
          have b2 : ¬ (4 = i) := fun e => b e.symm
          have c2 : ¬ (3 = i) := fun e => c e.symm
          by_cases h8 : i < 8
          · simp [a, b, c, a2, b2, c2, h8, hlt i h8]
          · simp [a, b, c, h8]
  · by_cases h2 : t > 28 ∧ t < 40
    · have h3 : ¬ (t ≥ 40) := by omega
      have h3b : ¬ (40 ≤ t) := by omega
      have h2b : 28 < t ∧ t < 40 := h2
      simp only [h1, h2, h3, and_self, if_true, if_false]
      simp only [testBit_port_and_not, testBit_port_or, testBit_BV, PB3, PB4, PB5]
      by_cases a : i = 5
      · subst a; simp [h1]
      · by_cases b : i = 4
        · subst b; simp [h2b]
        · by_cases c : i = 3
          · subst c; simp [h3b]
          · have a2 : ¬ (5 = i) := fun e => a e.symm
            have b2 : ¬ (4 = i) := fun e => b e.symm
            have c2 : ¬ (3 = i) := fun e => c e.symm
            by_cases h8 : i < 8
            · simp [a, b, c, a2, b2, c2, h8, hlt i h8]
            · simp [a, b, c, h8]
    · have h3 : t ≥ 40 := by omega
      have h3b : 40 ≤ t := h3
      have h2b : ¬ (28 < t ∧ t < 40) := h2
      simp only [h1, h2, h3, and_self, if_true, if_false]
      simp only [testBit_port_and_not, testBit_port_or, testBit_BV, PB3, PB4, PB5]
      by_cases a : i = 5
      · subst a; simp [h1]
      · by_cases b : i = 4
        · subst b; simp [h2b]
        · by_cases c : i = 3
          · subst c; simp [h3b]
          · have a2 : ¬ (5 = i) := fun e => a e.symm
            have b2 : ¬ (4 = i) := fun e => b e.symm
            have c2 : ¬ (3 = i) := fun e => c e.symm
            by_cases h8 : i < 8
            · simp [a, b, c, a2, b2, c2, h8, hlt i h8]
            · simp [a, b, c, h8]

/-! ## The step, branch by branch -/

theorem fsm_idle (h : twi_h) (m : Machine) (r : twi_reply) (hs : m.twi_state = IDLE_STATE) :
    fsm_twi_scanner h m r =
      { next := { m with twi_state := HUMIDITY_STATE }, calls := [] } := by
  simp [fsm_twi_scanner, hs]

theorem fsm_humidity_ok (h : twi_h) (m : Machine) (r : twi_reply)
    (hs : m.twi_state = HUMIDITY_STATE) (hr : r.start_w % 256 = 0) :
    fsm_twi_scanner h m r =
      { next :=
          { m with
            Meteo_values :=
              { m.Meteo_values with
                humidity_integer := r.read_ack % 256
                humidity_decimal := r.read_nack % 256 }
            twi_state := TEMPERATURE_STATE }
        calls :=
          [ call.twi_start ((DHT12 <<< 1) + h.TWI_WRITE), call.twi_write 0x00, call.twi_stop,
            call.twi_start ((DHT12 <<< 1) + h.TWI_READ), call.twi_read_ack,
            call.twi_read_nack, call.twi_stop ] } := by
  simp [fsm_twi_scanner, hs, hr, IDLE_STATE, HUMIDITY_STATE]

theorem fsm_humidity_fail (h : twi_h) (m : Machine) (r : twi_reply)
    (hs : m.twi_state = HUMIDITY_STATE) (hr : r.start_w % 256 ≠ 0) :
    fsm_twi_scanner h m r =
      { next := { m with twi_state := IDLE_STATE }
        calls :=
          [ call.twi_start ((DHT12 <<< 1) + h.TWI_WRITE),
            call.uart_puts "Not connected H" ] } := by
  simp [fsm_twi_scanner, hs, hr, IDLE_STATE, HUMIDITY_STATE]

theorem fsm_temperature_ok (h : twi_h) (m : Machine) (r : twi_reply)
    (hs : m.twi_state = TEMPERATURE_STATE) (hr : r.start_w % 256 = 0) :
    fsm_twi_scanner h m r =
      { next :=
          { m with
            Meteo_values :=
              { m.Meteo_values with
                temperature_integer := r.read_ack % 256
                temperature_decimal := r.read_nack % 256 }
            twi_state := UART_STATE }
        calls :=
          [ call.twi_start ((DHT12 <<< 1) + h.TWI_WRITE), call.twi_write 0x02, call.twi_stop,
            call.twi_start ((DHT12 <<< 1) + h.TWI_READ), call.twi_read_ack,
            call.twi_read_nack, call.twi_stop ] } := by
  simp [fsm_twi_scanner, hs, hr, IDLE_STATE, HUMIDITY_STATE, TEMPERATURE_STATE]

theorem fsm_temperature_fail (h : twi_h) (m : Machine) (r : twi_reply)
    (hs : m.twi_state = TEMPERATURE_STATE) (hr : r.start_w % 256 ≠ 0) :
    fsm_twi_scanner h m r =
      { next := { m with twi_state := IDLE_STATE }
        calls :=
          [ call.twi_start ((DHT12 <<< 1) + h.TWI_WRITE),
            call.uart_puts "Not connected T" ] } := by
  simp [fsm_twi_scanner, hs, hr, IDLE_STATE, HUMIDITY_STATE, TEMPERATURE_STATE]

theorem fsm_uart (h : twi_h) (m : Machine) (r : twi_reply) (hs : m.twi_state = UART_STATE) :
    fsm_twi_scanner h m r =
      { next :=
          { m with
            PORTB := apply_output m.Meteo_values.temperature_integer m.PORTB
            twi_state := IDLE_STATE }
        calls := [] } := by
  simp [fsm_twi_scanner, hs, IDLE_STATE, HUMIDITY_STATE, TEMPERATURE_STATE, UART_STATE]

theorem fsm_default (h : twi_h) (m : Machine) (r : twi_reply)
    (h1 : m.twi_state ≠ IDLE_STATE) (h2 : m.twi_state ≠ HUMIDITY_STATE)
    (h3 : m.twi_state ≠ TEMPERATURE_STATE) (h4 : m.twi_state ≠ UART_STATE) :
    fsm_twi_scanner h m r = { next := { m with twi_state := IDLE_STATE }, calls := [] } := by
  simp [fsm_twi_scanner, h1, h2, h3, h4]

theorem mod_256_of_byte {s : Nat} (hb : s < 256) : s % 256 = s := Nat.mod_eq_of_lt hb

/-- The three output bits after the `UART_STATE` branch. -/
theorem pins_apply_output (t p : Nat) :
    pin_set (apply_output t p) PB5 = decide (t ≤ 28) ∧
    pin_set (apply_output t p) PB4 = decide (29 ≤ t ∧ t ≤ 39) ∧
    pin_set (apply_output t p) PB3 = decide (40 ≤ t) := by
  simp only [pin_set_eq_testBit, testBit_apply_output]
  refine ⟨by simp, ?_, ?_⟩
  · have e : (29 ≤ t ∧ t ≤ 39) ↔ (28 < t ∧ t < 40) := by omega
    simp [PB4, PB5, e]
  · simp [PB3, PB4, PB5]

theorem one_led_apply_output (t p : Nat) : one_led (apply_output t p) = true := by
  obtain ⟨a, b, c⟩ := pins_apply_output t p
  unfold one_led
  rw [a, b, c]
  by_cases h1 : t ≤ 28
  · have h2 : ¬ (29 ≤ t ∧ t ≤ 39) := by omega
    have h3 : ¬ (40 ≤ t) := by omega
    simp [h1, h2, h3]
  · by_cases h2 : 29 ≤ t ∧ t ≤ 39
    · have h3 : ¬ (40 ≤ t) := by omega
      simp [h1, h2, h3]
    · have h3 : 40 ≤ t := by omega
      simp [h1, h2, h3]

/-- The seven paths through `fsm_twi_scanner`. -/
theorem fsm_cases (h : twi_h) (m : Machine) (r : twi_reply) :
    (m.twi_state = IDLE_STATE ∧
      fsm_twi_scanner h m r =
        { next := { m with twi_state := HUMIDITY_STATE }, calls := [] }) ∨
    (m.twi_state = HUMIDITY_STATE ∧ r.start_w % 256 = 0 ∧
      fsm_twi_scanner h m r =
        { next :=
            { m with
              Meteo_values :=
                { m.Meteo_values with
                  humidity_integer := r.read_ack % 256
                  humidity_decimal := r.read_nack % 256 }
              twi_state := TEMPERATURE_STATE }
          calls :=
            [ call.twi_start ((DHT12 <<< 1) + h.TWI_WRITE), call.twi_write 0x00,
              call.twi_stop, call.twi_start ((DHT12 <<< 1) + h.TWI_READ),
              call.twi_read_ack, call.twi_read_nack, call.twi_stop ] }) ∨
    (m.twi_state = HUMIDITY_STATE ∧ r.start_w % 256 ≠ 0 ∧
      fsm_twi_scanner h m r =
        { next := { m with twi_state := IDLE_STATE }
          calls :=
            [ call.twi_start ((DHT12 <<< 1) + h.TWI_WRITE),
              call.uart_puts "Not connected H" ] }) ∨
    (m.twi_state = TEMPERATURE_STATE ∧ r.start_w % 256 = 0 ∧
      fsm_twi_scanner h m r =
        { next :=
            { m with
              Meteo_values :=
                { m.Meteo_values with
                  temperature_integer := r.read_ack % 256
                  temperature_decimal := r.read_nack % 256 }
              twi_state := UART_STATE }
          calls :=
            [ call.twi_start ((DHT12 <<< 1) + h.TWI_WRITE), call.twi_write 0x02,
              call.twi_stop, call.twi_start ((DHT12 <<< 1) + h.TWI_READ),
              call.twi_read_ack, call.twi_read_nack, call.twi_stop ] }) ∨
    (m.twi_state = TEMPERATURE_STATE ∧ r.start_w % 256 ≠ 0 ∧
      fsm_twi_scanner h m r =
        { next := { m with twi_state := IDLE_STATE }
          calls :=
            [ call.twi_start ((DHT12 <<< 1) + h.TWI_WRITE),
              call.uart_puts "Not connected T" ] }) ∨
    (m.twi_state = UART_STATE ∧
      fsm_twi_scanner h m r =
        { next :=
            { m with
              PORTB := apply_output m.Meteo_values.temperature_integer m.PORTB
              twi_state := IDLE_STATE }
          calls := [] }) ∨
    ((m.twi_state ≠ IDLE_STATE ∧ m.twi_state ≠ HUMIDITY_STATE ∧
        m.twi_state ≠ TEMPERATURE_STATE ∧ m.twi_state ≠ UART_STATE) ∧
      fsm_twi_scanner h m r = { next := { m with twi_state := IDLE_STATE }, calls := [] }) := by
  by_cases h1 : m.twi_state = IDLE_STATE
  · exact Or.inl ⟨h1, fsm_idle h m r h1⟩
  by_cases h2 : m.twi_state = HUMIDITY_STATE
  · by_cases hr : r.start_w % 256 = 0
    · exact Or.inr (Or.inl ⟨h2, hr, fsm_humidity_ok h m r h2 hr⟩)
    · exact Or.inr (Or.inr (Or.inl ⟨h2, hr, fsm_humidity_fail h m r h2 hr⟩))
  by_cases h3 : m.twi_state = TEMPERATURE_STATE
  · by_cases hr : r.start_w % 256 = 0
    · exact Or.inr (Or.inr (Or.inr (Or.inl ⟨h3, hr, fsm_temperature_ok h m r h3 hr⟩)))
    · exact Or.inr (Or.inr (Or.inr (Or.inr (Or.inl
        ⟨h3, hr, fsm_temperature_fail h m r h3 hr⟩))))
  by_cases h4 : m.twi_state = UART_STATE
  · exact Or.inr (Or.inr (Or.inr (Or.inr (Or.inr (Or.inl ⟨h4, fsm_uart h m r h4⟩)))))
  · exact Or.inr (Or.inr (Or.inr (Or.inr (Or.inr (Or.inr
      ⟨⟨h1, h2, h3, h4⟩, fsm_default h m r h1 h2 h3 h4⟩)))))

/-- Outside `UART_STATE` a call leaves `PORTB` alone; in `UART_STATE` it
stores the output decision. -/
theorem fsm_PORTB (h : twi_h) (m : Machine) (r : twi_reply) :
    (fsm_twi_scanner h m r).next.PORTB =
      if m.twi_state = UART_STATE then
        apply_output m.Meteo_values.temperature_integer m.PORTB
      else m.PORTB := by
  rcases fsm_cases h m r with ⟨hs, e⟩ | ⟨hs, _, e⟩ | ⟨hs, _, e⟩ | ⟨hs, _, e⟩ | ⟨hs, _, e⟩ |
    ⟨hs, e⟩ | ⟨⟨_, _, _, hs⟩, e⟩ <;>
  rw [e] <;>
  simp only [IDLE_STATE, HUMIDITY_STATE, TEMPERATURE_STATE, UART_STATE] at hs ⊢ <;>
  simp [hs]

/-- Every call preserves "exactly one of PB5, PB4, PB3 is set". -/
theorem one_led_step (h : twi_h) (m : Machine) (r : twi_reply)
    (hp : one_led m.PORTB = true) : one_led (fsm_twi_scanner h m r).next.PORTB = true := by
  rw [fsm_PORTB]
  split
  · exact one_led_apply_output _ _
  · exact hp

/-- A call closes every bus transaction it opens exactly when it is not a
`HUMIDITY_STATE` or `TEMPERATURE_STATE` call whose write-direction `twi_start`
reports a non-zero status. -/
theorem bus_closed_fsm_iff (h : twi_h) (m : Machine) (r : twi_reply) :
    bus_closed (fsm_twi_scanner h m r).calls = true ↔
      ¬ ((m.twi_state = HUMIDITY_STATE ∨ m.twi_state = TEMPERATURE_STATE) ∧
          r.start_w % 256 ≠ 0) := by
  rcases fsm_cases h m r with ⟨hs, e⟩ | ⟨hs, hr, e⟩ | ⟨hs, hr, e⟩ | ⟨hs, hr, e⟩ | ⟨hs, hr, e⟩ |
    ⟨hs, e⟩ | ⟨⟨h1, h2, h3, h4⟩, e⟩
  · rw [e]; simp [bus_closed, hs, IDLE_STATE, HUMIDITY_STATE, TEMPERATURE_STATE]
  · rw [e]; simp [bus_closed, hs, hr]
  · rw [e]; simp [bus_closed, hs, hr]
  · rw [e]; simp [bus_closed, hs, hr]
  · rw [e]; simp [bus_closed, hs, hr]
  · rw [e]; simp [bus_closed, hs, UART_STATE, HUMIDITY_STATE, TEMPERATURE_STATE]
  · rw [e]; simp [bus_closed, h2, h3]

/-! ## Runs -/

theorem run_succ (h : twi_h) (bus : Nat → twi_reply) (m : Machine) (n : Nat) :
    run h bus m (n + 1) = (fsm_twi_scanner h (run h bus m n) (bus n)).next := rfl

/-- On the all-success path from `IDLE_STATE` the state after `n` calls is the
enumerator number `1 + n % 4`. -/
theorem run_state_all_success (h : twi_h) (bus : Nat → twi_reply) (m : Machine)
    (hm : m.twi_state = IDLE_STATE) (hbus : ∀ i, (bus i).start_w = 0) (n : Nat) :
    (run h bus m n).twi_state = 1 + n % 4 := by
  induction n with
  | zero => simpa [run, IDLE_STATE] using hm
  | succ n ih =>
    rw [run_succ]
    have hr : (bus n).start_w % 256 = 0 := by rw [hbus n]
    have h4 : n % 4 < 4 := Nat.mod_lt _ (by decide)
    have hcases : n % 4 = 0 ∨ n % 4 = 1 ∨ n % 4 = 2 ∨ n % 4 = 3 := by omega
    rcases hcases with c | c | c | c
    · have hs : (run h bus m n).twi_state = IDLE_STATE := by rw [ih, c]; rfl
      rw [fsm_idle h _ _ hs]
      show HUMIDITY_STATE = 1 + (n + 1) % 4
      unfold HUMIDITY_STATE; omega
    · have hs : (run h bus m n).twi_state = HUMIDITY_STATE := by rw [ih, c]; rfl
      rw [fsm_humidity_ok h _ _ hs hr]
      show TEMPERATURE_STATE = 1 + (n + 1) % 4
      unfold TEMPERATURE_STATE; omega
    · have hs : (run h bus m n).twi_state = TEMPERATURE_STATE := by rw [ih, c]; rfl
      rw [fsm_temperature_ok h _ _ hs hr]
      show UART_STATE = 1 + (n + 1) % 4
      unfold UART_STATE; omega
    · have hs : (run h bus m n).twi_state = UART_STATE := by rw [ih, c]; rfl
      rw [fsm_uart h _ _ hs]
      show IDLE_STATE = 1 + (n + 1) % 4
      unfold IDLE_STATE; omega

/-- The globals after each of the four calls of a cycle from `IDLE_STATE`
whose two bus transactions are acknowledged. -/
theorem run_success_cycle (h : twi_h) (bus : Nat → twi_reply) (m : Machine)
    (hm : m.twi_state = IDLE_STATE)
    (hr1 : (bus 1).start_w % 256 = 0) (hr2 : (bus 2).start_w % 256 = 0) :
    run h bus m 1 = { m with twi_state := HUMIDITY_STATE } ∧
    run h bus m 2 =
      { m with
        Meteo_values :=
          { m.Meteo_values with
            humidity_integer := (bus 1).read_ack % 256
            humidity_decimal := (bus 1).read_nack % 256 }
        twi_state := TEMPERATURE_STATE } ∧
    run h bus m 3 =
      { m with
        Meteo_values :=
          { humidity_integer := (bus 1).read_ack % 256
            humidity_decimal := (bus 1).read_nack % 256
            temperature_integer := (bus 2).read_ack % 256
            temperature_decimal := (bus 2).read_nack % 256 }
        twi_state := UART_STATE } ∧
    run h bus m 4 =
      { twi_state := IDLE_STATE
        Meteo_values :=
          { humidity_integer := (bus 1).read_ack % 256
            humidity_decimal := (bus 1).read_nack % 256
            temperature_integer := (bus 2).read_ack % 256
            temperature_decimal := (bus 2).read_nack % 256 }
        PORTB := apply_output ((bus 2).read_ack % 256) m.PORTB } := by
  have e1 : run h bus m 1 = { m with twi_state := HUMIDITY_STATE } := by
    rw [run_succ]
    show (fsm_twi_scanner h m (bus 0)).next = _
    rw [fsm_idle h m _ hm]
  have e2 : run h bus m 2 =
      { m with
        Meteo_values :=
          { m.Meteo_values with
            humidity_integer := (bus 1).read_ack % 256
            humidity_decimal := (bus 1).read_nack % 256 }
        twi_state := TEMPERATURE_STATE } := by
    rw [run_succ, e1, fsm_humidity_ok h _ _ rfl hr1]
  have e3 : run h bus m 3 =
      { m with
        Meteo_values :=
          { humidity_integer := (bus 1).read_ack % 256
            humidity_decimal := (bus 1).read_nack % 256
            temperature_integer := (bus 2).read_ack % 256
            temperature_decimal := (bus 2).read_nack % 256 }
        twi_state := UART_STATE } := by
    rw [run_succ, e2, fsm_temperature_ok h _ _ rfl hr2]
  refine ⟨e1, e2, e3, ?_⟩
  rw [run_succ, e3, fsm_uart h _ _ rfl]

/-! ## The decimal conversion on bytes -/

set_option maxRecDepth 100000 in
/-- On every byte the characters written by `itoa` at radix `10` are those of
the decimal rendering: between one and three of them, all digits. -/
theorem itoa_chars_byte :
    ∀ v, v < 256 →
      itoa_chars (v : Nat) 10 = some (decimal v).data ∧
      1 ≤ (decimal v).length ∧ (decimal v).length ≤ 3 ∧
      (decimal v).data.all Char.isDigit = true ∧ '-' ∉ (decimal v).data := by
  decide

/-- A byte converted into a buffer of at least four bytes. -/
theorem itoa_byte (v s : Nat) (hv : v < 256) (hs : 4 ≤ s) :
    itoa (v : Nat) s 10 = some (decimal v) := by
  obtain ⟨e, _, h3, _, _⟩ := itoa_chars_byte v hv
  have hlen : (decimal v).data.length + 1 ≤ s := by
    have h3b : (decimal v).data.length ≤ 3 := h3
    omega
  unfold itoa
  rw [e]
  simp only [hlen, if_true]

/-! ## Failure and retry -/

/-- A call whose write-direction `twi_start` fails changes `twi_state` only. -/
theorem fsm_fail_next (h : twi_h) (m : Machine) (r : twi_reply)
    (hs : m.twi_state = HUMIDITY_STATE ∨ m.twi_state = TEMPERATURE_STATE)
    (hr : r.start_w % 256 ≠ 0) :
    (fsm_twi_scanner h m r).next = { m with twi_state := IDLE_STATE } := by
  rcases hs with hs | hs
  · rw [fsm_humidity_fail h m r hs hr]
  · rw [fsm_temperature_fail h m r hs hr]

/-- The first call made in `HUMIDITY_STATE` is the write-direction
`twi_start`, whatever the bus answers. -/
theorem fsm_humidity_head (h : twi_h) (m : Machine) (r : twi_reply)
    (hs : m.twi_state = HUMIDITY_STATE) :
    (fsm_twi_scanner h m r).calls.head? =
      some (call.twi_start ((DHT12 <<< 1) + h.TWI_WRITE)) := by
  by_cases hr : r.start_w % 256 = 0
  · rw [fsm_humidity_ok h m r hs hr]; rfl
  · rw [fsm_humidity_fail h m r hs hr]; rfl

/-- Two calls after a failed addressing: the idle call, then `HUMIDITY_STATE`
again, with nothing else changed in the globals. -/
theorem run_after_fail (h : twi_h) (bus : Nat → twi_reply) (m : Machine) (k : Nat)
    (hs : (run h bus m k).twi_state = HUMIDITY_STATE ∨
      (run h bus m k).twi_state = TEMPERATURE_STATE)
    (hr : (bus k).start_w % 256 ≠ 0) :
    run h bus m (k + 1) = { run h bus m k with twi_state := IDLE_STATE } ∧
    calls_at h bus m (k + 1) = [] ∧
    run h bus m (k + 2) = { run h bus m k with twi_state := HUMIDITY_STATE } := by
  have e1 : run h bus m (k + 1) = { run h bus m k with twi_state := IDLE_STATE } := by
    rw [run_succ, fsm_fail_next h _ _ hs hr]
  have hidle : (run h bus m (k + 1)).twi_state = IDLE_STATE := by rw [e1]
  refine ⟨e1, ?_, ?_⟩
  · unfold calls_at
    rw [fsm_idle h _ _ hidle]
  · rw [run_succ h bus m (k + 1), fsm_idle h _ _ hidle, e1]

/-! ## Reachable states -/

/-- Whatever the state before, the state after a call is one of the four
enumerators. -/
theorem fsm_next_named (h : twi_h) (m : Machine) (r : twi_reply) :
    (fsm_twi_scanner h m r).next.twi_state = IDLE_STATE ∨
    (fsm_twi_scanner h m r).next.twi_state = HUMIDITY_STATE ∨
    (fsm_twi_scanner h m r).next.twi_state = TEMPERATURE_STATE ∨
    (fsm_twi_scanner h m r).next.twi_state = UART_STATE := by
  rcases fsm_cases h m r with ⟨_, e⟩ | ⟨_, _, e⟩ | ⟨_, _, e⟩ | ⟨_, _, e⟩ | ⟨_, _, e⟩ |
    ⟨_, e⟩ | ⟨_, e⟩
  · rw [e]; exact Or.inr (Or.inl rfl)
  · rw [e]; exact Or.inr (Or.inr (Or.inl rfl))
  · rw [e]; exact Or.inl rfl
  · rw [e]; exact Or.inr (Or.inr (Or.inr rfl))
  · rw [e]; exact Or.inl rfl
  · rw [e]; exact Or.inl rfl
  · rw [e]; exact Or.inl rfl

/-- The reply consulted by a call is its write-direction status and its two
bytes: the other two statuses can be replaced at will. -/
theorem fsm_ignores_statuses (h : twi_h) (m : Machine) (r : twi_reply) (w s : Nat) :
    fsm_twi_scanner h m { r with write := w, start_r := s } = fsm_twi_scanner h m r := rfl

/-! ## Claims -/

/-- C1: one call of `fsm_twi_scanner` in `UART_STATE` leaves exactly one of
the output bits PB5, PB4, PB3 set, for every prior `PORTB` and every
temperature `t`: PB5 when `t ≤ 28`, PB4 when `29 ≤ t ≤ 39`, PB3 when
`t ≥ 40`; and the call leaves `twi_state = IDLE_STATE`. -/
theorem C1_apply_output_one_led (h : twi_h) (m : Machine) (r : twi_reply)
    (hs : m.twi_state = UART_STATE) :
    pin_set (fsm_twi_scanner h m r).next.PORTB PB5
        = decide (m.Meteo_values.temperature_integer ≤ 28) ∧
    pin_set (fsm_twi_scanner h m r).next.PORTB PB4
        = decide (29 ≤ m.Meteo_values.temperature_integer ∧
            m.Meteo_values.temperature_integer ≤ 39) ∧
    pin_set (fsm_twi_scanner h m r).next.PORTB PB3
        = decide (40 ≤ m.Meteo_values.temperature_integer) ∧
    one_led (fsm_twi_scanner h m r).next.PORTB = true ∧
    (fsm_twi_scanner h m r).next.twi_state = IDLE_STATE := by
  rw [fsm_uart h m r hs]
  obtain ⟨a, b, c⟩ := pins_apply_output m.Meteo_values.temperature_integer m.PORTB
  exact ⟨a, b, c, one_led_apply_output _ _, rfl⟩

/-- C1 at the temperatures 27, 35 and 40, with all of `PORTB` set beforehand:
PB5 alone, PB4 alone, PB3 alone of the three output bits is set afterwards. -/
theorem C1_apply_output_one_led_witness :
    ((Machine.at_output 27 0xFF).twi_state = UART_STATE ∧
      pin_set (fsm_twi_scanner twi_h.sample (Machine.at_output 27 0xFF)
        (twi_reply.ack 0 0)).next.PORTB PB5 = true ∧
      pin_set (fsm_twi_scanner twi_h.sample (Machine.at_output 27 0xFF)
        (twi_reply.ack 0 0)).next.PORTB PB4 = false ∧
      pin_set (fsm_twi_scanner twi_h.sample (Machine.at_output 27 0xFF)
        (twi_reply.ack 0 0)).next.PORTB PB3 = false ∧
      one_led (fsm_twi_scanner twi_h.sample (Machine.at_output 27 0xFF)
        (twi_reply.ack 0 0)).next.PORTB = true ∧
      (fsm_twi_scanner twi_h.sample (Machine.at_output 27 0xFF)
        (twi_reply.ack 0 0)).next.twi_state = IDLE_STATE) ∧
    (pin_set (fsm_twi_scanner twi_h.sample (Machine.at_output 35 0xFF)
        (twi_reply.ack 0 0)).next.PORTB PB5 = false ∧
      pin_set (fsm_twi_scanner twi_h.sample (Machine.at_output 35 0xFF)
        (twi_reply.ack 0 0)).next.PORTB PB4 = true ∧
      pin_set (fsm_twi_scanner twi_h.sample (Machine.at_output 35 0xFF)
        (twi_reply.ack 0 0)).next.PORTB PB3 = false) ∧
    (pin_set (fsm_twi_scanner twi_h.sample (Machine.at_output 40 0xFF)
        (twi_reply.ack 0 0)).next.PORTB PB5 = false ∧
      pin_set (fsm_twi_scanner twi_h.sample (Machine.at_output 40 0xFF)
        (twi_reply.ack 0 0)).next.PORTB PB4 = false ∧
      pin_set (fsm_twi_scanner twi_h.sample (Machine.at_output 40 0xFF)
        (twi_reply.ack 0 0)).next.PORTB PB3 = true) :=
  ⟨⟨rfl, C1_apply_output_one_led twi_h.sample (Machine.at_output 27 0xFF)
      (twi_reply.ack 0 0) rfl⟩,
    ⟨(C1_apply_output_one_led twi_h.sample (Machine.at_output 35 0xFF)
        (twi_reply.ack 0 0) rfl).1,
      (C1_apply_output_one_led twi_h.sample (Machine.at_output 35 0xFF)
        (twi_reply.ack 0 0) rfl).2.1,
      (C1_apply_output_one_led twi_h.sample (Machine.at_output 35 0xFF)
        (twi_reply.ack 0 0) rfl).2.2.1⟩,
    ⟨(C1_apply_output_one_led twi_h.sample (Machine.at_output 40 0xFF)
        (twi_reply.ack 0 0) rfl).1,
      (C1_apply_output_one_led twi_h.sample (Machine.at_output 40 0xFF)
        (twi_reply.ack 0 0) rfl).2.1,
      (C1_apply_output_one_led twi_h.sample (Machine.at_output 40 0xFF)
        (twi_reply.ack 0 0) rfl).2.2.1⟩⟩

/-- C2: on the all-success path (every write-direction `twi_start` returns
`0`) from `IDLE_STATE`, the state after `n` calls is `IDLE_STATE`,
`HUMIDITY_STATE`, `TEMPERATURE_STATE` or `UART_STATE` according to
`n % 4 = 0, 1, 2, 3`: one transition per call, the state depends only on
`n % 4`, and the sequence of states has period `4` and no shorter period. -/
theorem C2_all_success_cycle (h : twi_h) (bus : Nat → twi_reply) (m : Machine)
    (hm : m.twi_state = IDLE_STATE) (hbus : ∀ i, (bus i).start_w = 0) (n : Nat) :
    (n % 4 = 0 → (run h bus m n).twi_state = IDLE_STATE ∧
        (run h bus m (n + 1)).twi_state = HUMIDITY_STATE) ∧
    (n % 4 = 1 → (run h bus m n).twi_state = HUMIDITY_STATE ∧
        (run h bus m (n + 1)).twi_state = TEMPERATURE_STATE) ∧
    (n % 4 = 2 → (run h bus m n).twi_state = TEMPERATURE_STATE ∧
        (run h bus m (n + 1)).twi_state = UART_STATE) ∧
    (n % 4 = 3 → (run h bus m n).twi_state = UART_STATE ∧
        (run h bus m (n + 1)).twi_state = IDLE_STATE) ∧
    (∀ k, k % 4 = n % 4 → (run h bus m k).twi_state = (run h bus m n).twi_state) ∧
    (run h bus m (n + 4)).twi_state = (run h bus m n).twi_state ∧
    (∀ p, 0 < p → p < 4 → (run h bus m (n + p)).twi_state ≠ (run h bus m n).twi_state) := by
  have key := run_state_all_success h bus m hm hbus
  refine ⟨?_, ?_, ?_, ?_, ?_, ?_, ?_⟩
  · intro c
    rw [key n, key (n + 1)]
    unfold IDLE_STATE HUMIDITY_STATE
    omega
  · intro c
    rw [key n, key (n + 1)]
    unfold HUMIDITY_STATE TEMPERATURE_STATE
    omega
  · intro c
    rw [key n, key (n + 1)]
    unfold TEMPERATURE_STATE UART_STATE
    omega
  · intro c
    rw [key n, key (n + 1)]
    unfold UART_STATE IDLE_STATE
    omega
  · intro k hk
    rw [key n, key k, hk]
  · rw [key n, key (n + 4)]
    omega
  · intro p hp0 hp4
    rw [key n, key (n + p)]
    omega

/-- C2 on a bus that always acknowledges, from the initial globals, at the
sixth call. -/
theorem C2_all_success_cycle_witness :
    (Machine.init 0).twi_state = IDLE_STATE ∧
    (∀ i, ((fun _ => ⟨0, 0, 0, 23, 5⟩ : Nat → twi_reply) i).start_w = 0) ∧
    (run twi_h.sample (fun _ => ⟨0, 0, 0, 23, 5⟩) (Machine.init 0) 6).twi_state
      = TEMPERATURE_STATE ∧
    (run twi_h.sample (fun _ => ⟨0, 0, 0, 23, 5⟩) (Machine.init 0) 7).twi_state
      = UART_STATE :=
  ⟨rfl, fun _ => rfl,
    (C2_all_success_cycle twi_h.sample (fun _ => ⟨0, 0, 0, 23, 5⟩) (Machine.init 0) rfl
      (fun _ => rfl) 6).2.2.1 (by decide)⟩

/-- C3: in `HUMIDITY_STATE`, when the write-direction `twi_start` returns a
non-zero status, the call leaves `twi_state = IDLE_STATE`, leaves the four
fields of `Meteo_values` and `PORTB` as they were, hands exactly
"Not connected H" to the serial link, and its only bus operation is that
`twi_start`: no write, no read, no second start. -/
theorem C3_humidity_start_fails (h : twi_h) (m : Machine) (r : twi_reply)
    (hs : m.twi_state = HUMIDITY_STATE) (hb : r.start_w < 256) (hf : r.start_w ≠ 0) :
    (fsm_twi_scanner h m r).next.twi_state = IDLE_STATE ∧
    (fsm_twi_scanner h m r).next.Meteo_values = m.Meteo_values ∧
    (fsm_twi_scanner h m r).next.PORTB = m.PORTB ∧
    uart_text (fsm_twi_scanner h m r).calls = "Not connected H" ∧
    bus_ops (fsm_twi_scanner h m r).calls = [call.twi_start ((DHT12 <<< 1) + h.TWI_WRITE)] := by
  have hr : r.start_w % 256 ≠ 0 := by rw [mod_256_of_byte hb]; exact hf
  rw [fsm_humidity_fail h m r hs hr]
  refine ⟨rfl, rfl, rfl, ?_, ?_⟩
  · simp [uart_text]
  · simp [bus_ops, call.is_bus]

/-- C3 with the sample `{23, 5, 27, 0}`, `PORTB = 0x20` and status `1`. -/
theorem C3_humidity_start_fails_witness :
    (⟨HUMIDITY_STATE, ⟨23, 5, 27, 0⟩, 0x20⟩ : Machine).twi_state = HUMIDITY_STATE ∧
    (⟨1, 0, 0, 0, 0⟩ : twi_reply).start_w < 256 ∧
    (⟨1, 0, 0, 0, 0⟩ : twi_reply).start_w ≠ 0 ∧
    (fsm_twi_scanner twi_h.sample ⟨HUMIDITY_STATE, ⟨23, 5, 27, 0⟩, 0x20⟩
        ⟨1, 0, 0, 0, 0⟩).next = ⟨IDLE_STATE, ⟨23, 5, 27, 0⟩, 0x20⟩ ∧
    uart_text (fsm_twi_scanner twi_h.sample ⟨HUMIDITY_STATE, ⟨23, 5, 27, 0⟩, 0x20⟩
        ⟨1, 0, 0, 0, 0⟩).calls = "Not connected H" :=
  ⟨rfl, by decide, by decide, by decide,
    (C3_humidity_start_fails twi_h.sample ⟨HUMIDITY_STATE, ⟨23, 5, 27, 0⟩, 0x20⟩
      ⟨1, 0, 0, 0, 0⟩ rfl (by decide) (by decide)).2.2.2.1⟩

/-- C4: a cycle from `IDLE_STATE` whose humidity call succeeds and whose
temperature call has its write-direction `twi_start` fail: afterwards the
humidity fields hold the two bytes read in the humidity call, the temperature
fields are those from before the cycle, the failing call hands exactly
"Not connected T" to the serial link, `twi_state` is `IDLE_STATE` and not
`UART_STATE`, and `PORTB` is what it was before the cycle. -/
theorem C4_temperature_start_fails (h : twi_h) (bus : Nat → twi_reply) (m : Machine)
    (hm : m.twi_state = IDLE_STATE)
    (h1 : (bus 1).start_w = 0)
    (ha : (bus 1).read_ack < 256) (hn : (bus 1).read_nack < 256)
    (hb : (bus 2).start_w < 256) (hf : (bus 2).start_w ≠ 0) :
    (run h bus m 3).Meteo_values =
      { humidity_integer := (bus 1).read_ack
        humidity_decimal := (bus 1).read_nack
        temperature_integer := m.Meteo_values.temperature_integer
        temperature_decimal := m.Meteo_values.temperature_decimal } ∧
    uart_text (calls_at h bus m 2) = "Not connected T" ∧
    (run h bus m 3).twi_state = IDLE_STATE ∧
    (run h bus m 3).twi_state ≠ UART_STATE ∧
    (run h bus m 3).PORTB = m.PORTB := by
  have hr1 : (bus 1).start_w % 256 = 0 := by rw [h1]
  have hr2 : (bus 2).start_w % 256 ≠ 0 := by rw [mod_256_of_byte hb]; exact hf
  have e1 : run h bus m 1 = { m with twi_state := HUMIDITY_STATE } := by
    rw [run_succ]
    show (fsm_twi_scanner h m (bus 0)).next = _
    rw [fsm_idle h m _ hm]
  have e2 : run h bus m 2 =
      { m with
        Meteo_values :=
          { m.Meteo_values with
            humidity_integer := (bus 1).read_ack
            humidity_decimal := (bus 1).read_nack }
        twi_state := TEMPERATURE_STATE } := by
    rw [run_succ, e1, fsm_humidity_ok h _ _ rfl hr1, mod_256_of_byte ha, mod_256_of_byte hn]
  have e3 : fsm_twi_scanner h (run h bus m 2) (bus 2) = _ :=
    fsm_temperature_fail h (run h bus m 2) (bus 2) (by rw [e2]) hr2
  have e4 : run h bus m 3 = (fsm_twi_scanner h (run h bus m 2) (bus 2)).next := rfl
  unfold calls_at
  rw [e4, e3, e2]
  refine ⟨rfl, ?_, rfl, ?_, rfl⟩
  · simp [uart_text]
  · show IDLE_STATE ≠ UART_STATE
    decide

/-- C4 on a cycle that starts with the sample `{40, 1, 27, 3}` and
`PORTB = 0x20`, reads humidity `(23, 5)` and then gets status `1`. -/
theorem C4_temperature_start_fails_witness :
    (⟨IDLE_STATE, ⟨40, 1, 27, 3⟩, 0x20⟩ : Machine).twi_state = IDLE_STATE ∧
    (bus_of [twi_reply.ack 0 0, twi_reply.ack 23 5, twi_reply.nak 1] (twi_reply.ack 0 0) 1).start_w
      = 0 ∧
    (bus_of [twi_reply.ack 0 0, twi_reply.ack 23 5, twi_reply.nak 1] (twi_reply.ack 0 0) 2).start_w
      ≠ 0 ∧
    run twi_h.sample
        (bus_of [twi_reply.ack 0 0, twi_reply.ack 23 5, twi_reply.nak 1] (twi_reply.ack 0 0))
        ⟨IDLE_STATE, ⟨40, 1, 27, 3⟩, 0x20⟩ 3
      = ⟨IDLE_STATE, ⟨23, 5, 27, 3⟩, 0x20⟩ ∧
    uart_text (calls_at twi_h.sample
        (bus_of [twi_reply.ack 0 0, twi_reply.ack 23 5, twi_reply.nak 1] (twi_reply.ack 0 0))
        ⟨IDLE_STATE, ⟨40, 1, 27, 3⟩, 0x20⟩ 2)
      = "Not connected T" :=
  ⟨rfl, rfl, by decide, by decide,
    (C4_temperature_start_fails twi_h.sample
      (bus_of [twi_reply.ack 0 0, twi_reply.ack 23 5, twi_reply.nak 1] (twi_reply.ack 0 0))
      ⟨IDLE_STATE, ⟨40, 1, 27, 3⟩, 0x20⟩ rfl rfl (by decide) (by decide) (by decide)
      (by decide)).2.1⟩

/-- C5: from `IDLE_STATE`, with a sensor that acknowledges and delivers the
bytes `(h1, h2)` in the humidity call and `(t1, t2)` in the temperature call,
four calls leave `Meteo_values = {h1, h2, t1, t2}` and
`twi_state = IDLE_STATE`, and exactly one output bit is set, the one selected
by `t1`: PB5 for `t1 ≤ 28`, PB4 for `29 ≤ t1 ≤ 39`, PB3 for `t1 ≥ 40`. -/
theorem C5_full_cycle (h : twi_h) (bus : Nat → twi_reply) (m : Machine)
    (h1 h2 t1 t2 : Nat)
    (hm : m.twi_state = IDLE_STATE)
    (hack : ∀ i, (bus i).start_w = 0)
    (hh1 : (bus 1).read_ack = h1) (hh2 : (bus 1).read_nack = h2)
    (ht1 : (bus 2).read_ack = t1) (ht2 : (bus 2).read_nack = t2)
    (b1 : h1 < 256) (b2 : h2 < 256) (b3 : t1 < 256) (b4 : t2 < 256) :
    (run h bus m 4).Meteo_values =
      { humidity_integer := h1, humidity_decimal := h2,
        temperature_integer := t1, temperature_decimal := t2 } ∧
    (run h bus m 4).twi_state = IDLE_STATE ∧
    pin_set (run h bus m 4).PORTB PB5 = decide (t1 ≤ 28) ∧
    pin_set (run h bus m 4).PORTB PB4 = decide (29 ≤ t1 ∧ t1 ≤ 39) ∧
    pin_set (run h bus m 4).PORTB PB3 = decide (40 ≤ t1) ∧
    one_led (run h bus m 4).PORTB = true := by
  have hr1 : (bus 1).start_w % 256 = 0 := by rw [hack 1]
  have hr2 : (bus 2).start_w % 256 = 0 := by rw [hack 2]
  have e1 : run h bus m 1 = { m with twi_state := HUMIDITY_STATE } := by
    rw [run_succ]
    show (fsm_twi_scanner h m (bus 0)).next = _
    rw [fsm_idle h m _ hm]
  have e2 : run h bus m 2 =
      { m with
        Meteo_values :=
          { m.Meteo_values with humidity_integer := h1, humidity_decimal := h2 }
        twi_state := TEMPERATURE_STATE } := by
    rw [run_succ, e1, fsm_humidity_ok h _ _ rfl hr1, hh1, hh2, mod_256_of_byte b1,
      mod_256_of_byte b2]
  have e3 : run h bus m 3 =
      { m with
        Meteo_values :=
          { humidity_integer := h1, humidity_decimal := h2,
            temperature_integer := t1, temperature_decimal := t2 }
        twi_state := UART_STATE } := by
    rw [run_succ, e2, fsm_temperature_ok h _ _ rfl hr2, ht1, ht2, mod_256_of_byte b3,
      mod_256_of_byte b4]
  have e4 : run h bus m 4 =
      { twi_state := IDLE_STATE
        Meteo_values :=
          { humidity_integer := h1, humidity_decimal := h2,
            temperature_integer := t1, temperature_decimal := t2 }
        PORTB := apply_output t1 m.PORTB } := by
    rw [run_succ, e3, fsm_uart h _ _ rfl]
  rw [e4]
  obtain ⟨a, b, c⟩ := pins_apply_output t1 m.PORTB
  exact ⟨rfl, rfl, a, b, c, one_led_apply_output _ _⟩

/-- C5 on Scenario 1: humidity `(23, 5)`, temperature `(27, 0)`, from the
initial globals with all of `PORTB` set: the sample is `{23, 5, 27, 0}` and of
the three output bits PB5 alone is set. -/
theorem C5_full_cycle_witness :
    (Machine.init 0xFF).twi_state = IDLE_STATE ∧
    (run twi_h.sample (bus_of [twi_reply.ack 0 0, twi_reply.ack 23 5] (twi_reply.ack 27 0))
        (Machine.init 0xFF) 4).Meteo_values = ⟨23, 5, 27, 0⟩ ∧
    (run twi_h.sample (bus_of [twi_reply.ack 0 0, twi_reply.ack 23 5] (twi_reply.ack 27 0))
        (Machine.init 0xFF) 4).twi_state = IDLE_STATE ∧
    pin_set (run twi_h.sample
        (bus_of [twi_reply.ack 0 0, twi_reply.ack 23 5] (twi_reply.ack 27 0))
        (Machine.init 0xFF) 4).PORTB PB5 = true ∧
    pin_set (run twi_h.sample
        (bus_of [twi_reply.ack 0 0, twi_reply.ack 23 5] (twi_reply.ack 27 0))
        (Machine.init 0xFF) 4).PORTB PB4 = false ∧
    pin_set (run twi_h.sample
        (bus_of [twi_reply.ack 0 0, twi_reply.ack 23 5] (twi_reply.ack 27 0))
        (Machine.init 0xFF) 4).PORTB PB3 = false ∧
    one_led (run twi_h.sample
        (bus_of [twi_reply.ack 0 0, twi_reply.ack 23 5] (twi_reply.ack 27 0))
        (Machine.init 0xFF) 4).PORTB = true :=
  ⟨rfl,
    C5_full_cycle twi_h.sample
      (bus_of [twi_reply.ack 0 0, twi_reply.ack 23 5] (twi_reply.ack 27 0))
      (Machine.init 0xFF) 23 5 27 0 rfl
      (fun i => by
        unfold bus_of
        rcases i with _ | _ | i <;> simp [twi_reply.ack, List.getD])
      rfl rfl rfl rfl
      (by decide) (by decide) (by decide) (by decide)⟩

/-- C6: "exactly one of PB5, PB4, PB3 is set" is preserved by every call of
`fsm_twi_scanner`, whatever the state and the bus reply; and once a call has
run in `UART_STATE` it holds after that call and after every later call, for
every bus behaviour. -/
theorem C6_one_led_invariant (h : twi_h) (m : Machine) (r : twi_reply) :
    (one_led m.PORTB = true → one_led (fsm_twi_scanner h m r).next.PORTB = true) ∧
    (m.twi_state = UART_STATE →
      ∀ (bus : Nat → twi_reply) (n : Nat),
        one_led (run h bus (fsm_twi_scanner h m r).next n).PORTB = true) := by
  refine ⟨one_led_step h m r, ?_⟩
  intro hs bus n
  induction n with
  | zero =>
    show one_led (fsm_twi_scanner h m r).next.PORTB = true
    rw [fsm_uart h m r hs]
    exact one_led_apply_output _ _
  | succ n ih =>
    rw [run_succ]
    exact one_led_step h _ _ ih

/-- C6 at two inputs: a `TEMPERATURE_STATE` call on `PORTB = 0x10` keeps the
single output bit; and after a `UART_STATE` call on `PORTB = 0xFF` (all three
bits set) exactly one bit is set five calls later, two of which fail. -/
theorem C6_one_led_invariant_witness :
    (one_led (⟨TEMPERATURE_STATE, ⟨23, 5, 27, 0⟩, 0x10⟩ : Machine).PORTB = true ∧
      one_led (fsm_twi_scanner twi_h.sample ⟨TEMPERATURE_STATE, ⟨23, 5, 27, 0⟩, 0x10⟩
        (twi_reply.ack 41 0)).next.PORTB = true) ∧
    ((⟨UART_STATE, ⟨23, 5, 41, 0⟩, 0xFF⟩ : Machine).twi_state = UART_STATE ∧
      one_led (⟨UART_STATE, ⟨23, 5, 41, 0⟩, 0xFF⟩ : Machine).PORTB = false ∧
      one_led (run twi_h.sample (bus_of [twi_reply.ack 0 0, twi_reply.nak 1] (twi_reply.nak 2))
        (fsm_twi_scanner twi_h.sample ⟨UART_STATE, ⟨23, 5, 41, 0⟩, 0xFF⟩
          (twi_reply.ack 0 0)).next 5).PORTB = true) :=
  ⟨⟨by decide,
      (C6_one_led_invariant twi_h.sample ⟨TEMPERATURE_STATE, ⟨23, 5, 27, 0⟩, 0x10⟩
        (twi_reply.ack 41 0)).1 (by decide)⟩,
    ⟨rfl, by decide,
      (C6_one_led_invariant twi_h.sample ⟨UART_STATE, ⟨23, 5, 41, 0⟩, 0xFF⟩
        (twi_reply.ack 0 0)).2 rfl
        (bus_of [twi_reply.ack 0 0, twi_reply.nak 1] (twi_reply.nak 2)) 5⟩⟩

/-- C7 (fails on the code): with the sensor absent, the second interrupt after
reset runs in `HUMIDITY_STATE`, issues `twi_start`, gets the status `1`, and
returns after `uart_puts` without any `twi_stop`: the `twi_start` of that call
is not followed by a `twi_stop`, and the bus is held when the call returns. -/
theorem C7_failed_start_not_stopped :
    (run twi_h.sample (bus_of [] (twi_reply.nak 1)) (Machine.init 0) 1).twi_state
      = HUMIDITY_STATE ∧
    calls_at twi_h.sample (bus_of [] (twi_reply.nak 1)) (Machine.init 0) 1
      = [call.twi_start 0xB8, call.uart_puts "Not connected H"] ∧
    call.twi_stop ∉ calls_at twi_h.sample (bus_of [] (twi_reply.nak 1)) (Machine.init 0) 1 ∧
    bus_closed (calls_at twi_h.sample (bus_of [] (twi_reply.nak 1)) (Machine.init 0) 1)
      = false ∧
    bus_held false (calls_at twi_h.sample (bus_of [] (twi_reply.nak 1)) (Machine.init 0) 1)
      = true := by
  refine ⟨by decide, by decide, by decide, by decide, by decide⟩

/-- C8: a `HUMIDITY_STATE` call can change only the two humidity fields of
`Meteo_values`, a `TEMPERATURE_STATE` call only the two temperature fields, a
call in any other state (idle, output, unknown) changes no field; a call that
changes `Meteo_values` advances the state (`HUMIDITY_STATE` to
`TEMPERATURE_STATE`, or `TEMPERATURE_STATE` to `UART_STATE`), and a call that
ends in `IDLE_STATE` leaves `Meteo_values` as it was.  In a full successful
cycle from `IDLE_STATE` the sample is therefore stored into in the second and
the third call only: the first and the fourth leave it as it is. -/
theorem C8_sample_frame (h : twi_h) (m : Machine) (r : twi_reply) (bus : Nat → twi_reply) :
    (m.twi_state = HUMIDITY_STATE →
      (fsm_twi_scanner h m r).next.Meteo_values.temperature_integer
          = m.Meteo_values.temperature_integer ∧
      (fsm_twi_scanner h m r).next.Meteo_values.temperature_decimal
          = m.Meteo_values.temperature_decimal) ∧
    (m.twi_state = TEMPERATURE_STATE →
      (fsm_twi_scanner h m r).next.Meteo_values.humidity_integer
          = m.Meteo_values.humidity_integer ∧
      (fsm_twi_scanner h m r).next.Meteo_values.humidity_decimal
          = m.Meteo_values.humidity_decimal) ∧
    (m.twi_state ≠ HUMIDITY_STATE → m.twi_state ≠ TEMPERATURE_STATE →
      (fsm_twi_scanner h m r).next.Meteo_values = m.Meteo_values) ∧
    ((fsm_twi_scanner h m r).next.Meteo_values ≠ m.Meteo_values →
      (m.twi_state = HUMIDITY_STATE ∧
          (fsm_twi_scanner h m r).next.twi_state = TEMPERATURE_STATE) ∨
      (m.twi_state = TEMPERATURE_STATE ∧
          (fsm_twi_scanner h m r).next.twi_state = UART_STATE)) ∧
    ((fsm_twi_scanner h m r).next.twi_state = IDLE_STATE →
      (fsm_twi_scanner h m r).next.Meteo_values = m.Meteo_values) ∧
    (m.twi_state = IDLE_STATE → (∀ i, (bus i).start_w = 0) →
      (run h bus m 1).Meteo_values = m.Meteo_values ∧
      (run h bus m 2).Meteo_values =
        { m.Meteo_values with
          humidity_integer := (bus 1).read_ack % 256
          humidity_decimal := (bus 1).read_nack % 256 } ∧
      (run h bus m 3).Meteo_values =
        { humidity_integer := (bus 1).read_ack % 256
          humidity_decimal := (bus 1).read_nack % 256
          temperature_integer := (bus 2).read_ack % 256
          temperature_decimal := (bus 2).read_nack % 256 } ∧
      (run h bus m 4).Meteo_values = (run h bus m 3).Meteo_values) := by
  refine ⟨?_, ?_, ?_, ?_, ?_, ?_⟩
  · intro hs
    rcases Nat.eq_zero_or_pos (r.start_w % 256) with hr | hr
    · rw [fsm_humidity_ok h m r hs hr]; exact ⟨rfl, rfl⟩
    · rw [fsm_humidity_fail h m r hs (Nat.pos_iff_ne_zero.1 hr)]; exact ⟨rfl, rfl⟩
  · intro hs
    rcases Nat.eq_zero_or_pos (r.start_w % 256) with hr | hr
    · rw [fsm_temperature_ok h m r hs hr]; exact ⟨rfl, rfl⟩
    · rw [fsm_temperature_fail h m r hs (Nat.pos_iff_ne_zero.1 hr)]; exact ⟨rfl, rfl⟩
  · intro n2 n3
    rcases fsm_cases h m r with ⟨hs, e⟩ | ⟨hs, _, e⟩ | ⟨hs, _, e⟩ | ⟨hs, _, e⟩ | ⟨hs, _, e⟩ |
      ⟨hs, e⟩ | ⟨_, e⟩
    · rw [e]
    · exact absurd hs n2
    · exact absurd hs n2
    · exact absurd hs n3
    · exact absurd hs n3
    · rw [e]
    · rw [e]
  · intro hne
    rcases fsm_cases h m r with ⟨hs, e⟩ | ⟨hs, _, e⟩ | ⟨hs, _, e⟩ | ⟨hs, _, e⟩ | ⟨hs, _, e⟩ |
      ⟨hs, e⟩ | ⟨_, e⟩
    · rw [e] at hne; exact absurd rfl hne
    · rw [e]; exact Or.inl ⟨hs, rfl⟩
    · rw [e] at hne; exact absurd rfl hne
    · rw [e]; exact Or.inr ⟨hs, rfl⟩
    · rw [e] at hne; exact absurd rfl hne
    · rw [e] at hne; exact absurd rfl hne
    · rw [e] at hne; exact absurd rfl hne
  · intro hidle
    rcases fsm_cases h m r with ⟨hs, e⟩ | ⟨hs, _, e⟩ | ⟨hs, _, e⟩ | ⟨hs, _, e⟩ | ⟨hs, _, e⟩ |
      ⟨hs, e⟩ | ⟨_, e⟩
    · rw [e]
    · rw [e] at hidle
      have hne : TEMPERATURE_STATE ≠ IDLE_STATE := by decide
      exact absurd hidle hne
    · rw [e]
    · rw [e] at hidle
      have hne : UART_STATE ≠ IDLE_STATE := by decide
      exact absurd hidle hne
    · rw [e]
    · rw [e]
    · rw [e]
  · intro hm hack
    have hr1 : (bus 1).start_w % 256 = 0 := by rw [hack 1]
    have hr2 : (bus 2).start_w % 256 = 0 := by rw [hack 2]
    obtain ⟨e1, e2, e3, e4⟩ := run_success_cycle h bus m hm hr1 hr2
    rw [e4, e3, e2, e1]
    exact ⟨rfl, rfl, rfl, rfl⟩

/-- C8 at three inputs: a successful humidity call on the sample
`{1, 2, 3, 4}` (the temperature fields stay `3` and `4`, the sample changes
and the state advances), a failing temperature call (ends in `IDLE_STATE`,
sample as before), and a full successful cycle from the initial globals. -/
theorem C8_sample_frame_witness :
    ((⟨HUMIDITY_STATE, ⟨1, 2, 3, 4⟩, 0⟩ : Machine).twi_state = HUMIDITY_STATE ∧
      (fsm_twi_scanner twi_h.sample ⟨HUMIDITY_STATE, ⟨1, 2, 3, 4⟩, 0⟩
          (twi_reply.ack 23 5)).next.Meteo_values.temperature_integer = 3 ∧
      (fsm_twi_scanner twi_h.sample ⟨HUMIDITY_STATE, ⟨1, 2, 3, 4⟩, 0⟩
          (twi_reply.ack 23 5)).next.Meteo_values.temperature_decimal = 4) ∧
    ((fsm_twi_scanner twi_h.sample ⟨HUMIDITY_STATE, ⟨1, 2, 3, 4⟩, 0⟩
          (twi_reply.ack 23 5)).next.Meteo_values ≠ ⟨1, 2, 3, 4⟩ ∧
      (fsm_twi_scanner twi_h.sample ⟨HUMIDITY_STATE, ⟨1, 2, 3, 4⟩, 0⟩
          (twi_reply.ack 23 5)).next.twi_state = TEMPERATURE_STATE) ∧
    ((fsm_twi_scanner twi_h.sample ⟨TEMPERATURE_STATE, ⟨1, 2, 3, 4⟩, 0⟩
          (twi_reply.nak 1)).next.twi_state = IDLE_STATE ∧
      (fsm_twi_scanner twi_h.sample ⟨TEMPERATURE_STATE, ⟨1, 2, 3, 4⟩, 0⟩
          (twi_reply.nak 1)).next.Meteo_values = ⟨1, 2, 3, 4⟩) ∧
    ((run twi_h.sample (bus_of [] (twi_reply.ack 23 5)) (Machine.init 0) 1).Meteo_values
          = ⟨0, 0, 0, 0⟩ ∧
      (run twi_h.sample (bus_of [] (twi_reply.ack 23 5)) (Machine.init 0) 2).Meteo_values
          = ⟨23, 5, 0, 0⟩ ∧
      (run twi_h.sample (bus_of [] (twi_reply.ack 23 5)) (Machine.init 0) 3).Meteo_values
          = ⟨23, 5, 23, 5⟩ ∧
      (run twi_h.sample (bus_of [] (twi_reply.ack 23 5)) (Machine.init 0) 4).Meteo_values
          = ⟨23, 5, 23, 5⟩) :=
  ⟨⟨rfl,
      (C8_sample_frame twi_h.sample ⟨HUMIDITY_STATE, ⟨1, 2, 3, 4⟩, 0⟩ (twi_reply.ack 23 5)
        (bus_of [] (twi_reply.ack 23 5))).1 rfl⟩,
    ⟨by decide,
      ((C8_sample_frame twi_h.sample ⟨HUMIDITY_STATE, ⟨1, 2, 3, 4⟩, 0⟩ (twi_reply.ack 23 5)
        (bus_of [] (twi_reply.ack 23 5))).2.2.2.1 (by decide)).elim
        (fun hadv => hadv.2) (fun hadv => absurd hadv.1 (by decide))⟩,
    ⟨by decide,
      (C8_sample_frame twi_h.sample ⟨TEMPERATURE_STATE, ⟨1, 2, 3, 4⟩, 0⟩ (twi_reply.nak 1)
        (bus_of [] (twi_reply.ack 23 5))).2.2.2.2.1 (by decide)⟩,
    (C8_sample_frame twi_h.sample (Machine.init 0) (twi_reply.ack 23 5)
      (bus_of [] (twi_reply.ack 23 5))).2.2.2.2.2 rfl (fun _ => rfl)⟩

/-- C9: a `HUMIDITY_STATE` call whose write-direction `twi_start` succeeds
issues exactly the bus operations `twi_start((DHT12<<1)+TWI_WRITE)`,
`twi_write(0x00)`, `twi_stop`, `twi_start((DHT12<<1)+TWI_READ)`,
`twi_read_ack`, `twi_read_nack`, `twi_stop`, in this order, and stores the
byte of `twi_read_ack` in `humidity_integer` and the byte of `twi_read_nack`
in `humidity_decimal`; a `TEMPERATURE_STATE` call does the same with the
selector `0x02` and the two temperature fields. -/
theorem C9_transaction_shape (h : twi_h) (m : Machine) (r : twi_reply)
    (hok : r.start_w = 0) (ha : r.read_ack < 256) (hn : r.read_nack < 256) :
    (m.twi_state = HUMIDITY_STATE →
      bus_ops (fsm_twi_scanner h m r).calls =
        [ call.twi_start ((DHT12 <<< 1) + h.TWI_WRITE), call.twi_write 0x00, call.twi_stop,
          call.twi_start ((DHT12 <<< 1) + h.TWI_READ), call.twi_read_ack,
          call.twi_read_nack, call.twi_stop ] ∧
      (fsm_twi_scanner h m r).next.Meteo_values.humidity_integer = r.read_ack ∧
      (fsm_twi_scanner h m r).next.Meteo_values.humidity_decimal = r.read_nack) ∧
    (m.twi_state = TEMPERATURE_STATE →
      bus_ops (fsm_twi_scanner h m r).calls =
        [ call.twi_start ((DHT12 <<< 1) + h.TWI_WRITE), call.twi_write 0x02, call.twi_stop,
          call.twi_start ((DHT12 <<< 1) + h.TWI_READ), call.twi_read_ack,
          call.twi_read_nack, call.twi_stop ] ∧
      (fsm_twi_scanner h m r).next.Meteo_values.temperature_integer = r.read_ack ∧
      (fsm_twi_scanner h m r).next.Meteo_values.temperature_decimal = r.read_nack) := by
  have hr : r.start_w % 256 = 0 := by rw [hok]
  constructor
  · intro hs
    rw [fsm_humidity_ok h m r hs hr]
    refine ⟨?_, mod_256_of_byte ha, mod_256_of_byte hn⟩
    simp [bus_ops, call.is_bus]
  · intro hs
    rw [fsm_temperature_ok h m r hs hr]
    refine ⟨?_, mod_256_of_byte ha, mod_256_of_byte hn⟩
    simp [bus_ops, call.is_bus]

/-- C9 on a humidity call reading `(23, 5)` and a temperature call reading
`(27, 0)`, with `TWI_WRITE = 0` and `TWI_READ = 1`: the addresses on the bus
are `0xB8` and `0xB9`. -/
theorem C9_transaction_shape_witness :
    (bus_ops (fsm_twi_scanner twi_h.sample ⟨HUMIDITY_STATE, ⟨0, 0, 0, 0⟩, 0⟩
          (twi_reply.ack 23 5)).calls =
        [ call.twi_start 0xB8, call.twi_write 0x00, call.twi_stop, call.twi_start 0xB9,
          call.twi_read_ack, call.twi_read_nack, call.twi_stop ] ∧
      (fsm_twi_scanner twi_h.sample ⟨HUMIDITY_STATE, ⟨0, 0, 0, 0⟩, 0⟩
          (twi_reply.ack 23 5)).next.Meteo_values.humidity_integer = 23 ∧
      (fsm_twi_scanner twi_h.sample ⟨HUMIDITY_STATE, ⟨0, 0, 0, 0⟩, 0⟩
          (twi_reply.ack 23 5)).next.Meteo_values.humidity_decimal = 5) ∧
    (bus_ops (fsm_twi_scanner twi_h.sample ⟨TEMPERATURE_STATE, ⟨23, 5, 0, 0⟩, 0⟩
          (twi_reply.ack 27 0)).calls =
        [ call.twi_start 0xB8, call.twi_write 0x02, call.twi_stop, call.twi_start 0xB9,
          call.twi_read_ack, call.twi_read_nack, call.twi_stop ] ∧
      (fsm_twi_scanner twi_h.sample ⟨TEMPERATURE_STATE, ⟨23, 5, 0, 0⟩, 0⟩
          (twi_reply.ack 27 0)).next.Meteo_values.temperature_integer = 27 ∧
      (fsm_twi_scanner twi_h.sample ⟨TEMPERATURE_STATE, ⟨23, 5, 0, 0⟩, 0⟩
          (twi_reply.ack 27 0)).next.Meteo_values.temperature_decimal = 0) :=
  ⟨(C9_transaction_shape twi_h.sample ⟨HUMIDITY_STATE, ⟨0, 0, 0, 0⟩, 0⟩ (twi_reply.ack 23 5)
      rfl (by decide) (by decide)).1 rfl,
    (C9_transaction_shape twi_h.sample ⟨TEMPERATURE_STATE, ⟨23, 5, 0, 0⟩, 0⟩
      (twi_reply.ack 27 0) rfl (by decide) (by decide)).2 rfl⟩

/-- C10: the text handed to the serial link by a call of `fsm_twi_scanner` is
non-empty exactly when the call runs in `HUMIDITY_STATE` or
`TEMPERATURE_STATE` and its write-direction `twi_start` returns a non-zero
status; it is then the literal "Not connected H", respectively
"Not connected T", and in no case contains a carriage return or a line
feed.  Successful calls and calls in any other state hand over nothing. -/
theorem C10_diagnostic_text (h : twi_h) (m : Machine) (r : twi_reply)
    (hb : r.start_w < 256) :
    (uart_text (fsm_twi_scanner h m r).calls ≠ "" ↔
      ((m.twi_state = HUMIDITY_STATE ∨ m.twi_state = TEMPERATURE_STATE) ∧ r.start_w ≠ 0)) ∧
    (m.twi_state = HUMIDITY_STATE → r.start_w ≠ 0 →
      uart_text (fsm_twi_scanner h m r).calls = "Not connected H") ∧
    (m.twi_state = TEMPERATURE_STATE → r.start_w ≠ 0 →
      uart_text (fsm_twi_scanner h m r).calls = "Not connected T") ∧
    '\n' ∉ (uart_text (fsm_twi_scanner h m r).calls).toList ∧
    '\r' ∉ (uart_text (fsm_twi_scanner h m r).calls).toList := by
  have hmod : r.start_w % 256 = r.start_w := mod_256_of_byte hb
  have hH : uart_text [call.twi_start ((DHT12 <<< 1) + h.TWI_WRITE),
      call.uart_puts "Not connected H"] = "Not connected H" := by simp [uart_text]
  have hT : uart_text [call.twi_start ((DHT12 <<< 1) + h.TWI_WRITE),
      call.uart_puts "Not connected T"] = "Not connected T" := by simp [uart_text]
  have hok : ∀ w : Nat, uart_text [call.twi_start ((DHT12 <<< 1) + h.TWI_WRITE),
      call.twi_write w, call.twi_stop, call.twi_start ((DHT12 <<< 1) + h.TWI_READ),
      call.twi_read_ack, call.twi_read_nack, call.twi_stop] = "" := fun _ => rfl
  have hnil : uart_text [] = "" := rfl
  have nH : ("Not connected H" : String) ≠ "" := by decide
  have nT : ("Not connected T" : String) ≠ "" := by decide
  have lH : '\n' ∉ ("Not connected H" : String).toList ∧
      '\r' ∉ ("Not connected H" : String).toList := by decide
  have lT : '\n' ∉ ("Not connected T" : String).toList ∧
      '\r' ∉ ("Not connected T" : String).toList := by decide
  have lE : '\n' ∉ ("" : String).toList ∧ '\r' ∉ ("" : String).toList := by decide
  have s12 : IDLE_STATE ≠ HUMIDITY_STATE := by decide
  have s13 : IDLE_STATE ≠ TEMPERATURE_STATE := by decide
  have s23 : HUMIDITY_STATE ≠ TEMPERATURE_STATE := by decide
  have s32 : TEMPERATURE_STATE ≠ HUMIDITY_STATE := by decide
  have s42 : UART_STATE ≠ HUMIDITY_STATE := by decide
  have s43 : UART_STATE ≠ TEMPERATURE_STATE := by decide
  rcases fsm_cases h m r with ⟨hs, e⟩ | ⟨hs, hr, e⟩ | ⟨hs, hr, e⟩ | ⟨hs, hr, e⟩ | ⟨hs, hr, e⟩ |
    ⟨hs, e⟩ | ⟨⟨h1, h2, h3, h4⟩, e⟩
  · rw [e, hs]
    simp only [hnil]
    exact ⟨⟨fun hx => absurd rfl hx, fun hx => hx.1.elim (absurd · s12) (absurd · s13)⟩,
      fun hx => absurd hx s12, fun hx => absurd hx s13, lE⟩
  · rw [hmod] at hr
    rw [e, hs]
    simp only [hok]
    exact ⟨⟨fun hx => absurd rfl hx, fun hx => absurd hr hx.2⟩,
      fun _ hx => absurd hr hx, fun hx => absurd hx s23, lE⟩
  · rw [hmod] at hr
    rw [e, hs]
    simp only [hH]
    exact ⟨⟨fun _ => ⟨Or.inl trivial, hr⟩, fun _ => nH⟩,
      fun _ _ => trivial, fun hx => absurd hx s23, lH⟩
  · rw [hmod] at hr
    rw [e, hs]
    simp only [hok]
    exact ⟨⟨fun hx => absurd rfl hx, fun hx => absurd hr hx.2⟩,
      fun hx => absurd hx s32, fun _ hx => absurd hr hx, lE⟩
  · rw [hmod] at hr
    rw [e, hs]
    simp only [hT]
    exact ⟨⟨fun _ => ⟨Or.inr trivial, hr⟩, fun _ => nT⟩,
      fun hx => absurd hx s32, fun _ _ => trivial, lT⟩
  · rw [e, hs]
    simp only [hnil]
    exact ⟨⟨fun hx => absurd rfl hx, fun hx => hx.1.elim (absurd · s42) (absurd · s43)⟩,
      fun hx => absurd hx s42, fun hx => absurd hx s43, lE⟩
  · rw [e]
    simp only [hnil]
    exact ⟨⟨fun hx => absurd rfl hx, fun hx => hx.1.elim (absurd · h2) (absurd · h3)⟩,
      fun hx => absurd hx h2, fun hx => absurd hx h3, lE⟩

/-- C10 on a failing temperature call (status `32`) and on a successful
humidity call. -/
theorem C10_diagnostic_text_witness :
    ((twi_reply.nak 32).start_w < 256 ∧ (twi_reply.nak 32).start_w ≠ 0 ∧
      uart_text (fsm_twi_scanner twi_h.sample ⟨TEMPERATURE_STATE, ⟨23, 5, 27, 0⟩, 0x20⟩
          (twi_reply.nak 32)).calls = "Not connected T") ∧
    ((twi_reply.ack 23 5).start_w < 256 ∧
      ¬ (uart_text (fsm_twi_scanner twi_h.sample ⟨HUMIDITY_STATE, ⟨0, 0, 0, 0⟩, 0⟩
          (twi_reply.ack 23 5)).calls ≠ "")) :=
  ⟨⟨by decide, by decide,
      (C10_diagnostic_text twi_h.sample ⟨TEMPERATURE_STATE, ⟨23, 5, 27, 0⟩, 0x20⟩
        (twi_reply.nak 32) (by decide)).2.2.1 rfl (by decide)⟩,
    ⟨by decide,
      fun hne =>
        ((C10_diagnostic_text twi_h.sample ⟨HUMIDITY_STATE, ⟨0, 0, 0, 0⟩, 0⟩
          (twi_reply.ack 23 5) (by decide)).1.1 hne).2 rfl⟩⟩

/-- C11: for a sample `{h_i, h_f, t_i, t_f}` of bytes that stays the same
during one iteration of the forever loop of `main`, the iteration completes
and the text it hands to the serial link is exactly
"\r\n---Humidity values---:\r\n", the decimal rendering of `h_i`, ".", that
of `h_f`, "\r\n---Temperature values---:\r\n", that of `t_i`, ".", that of
`t_f`; the last call of the iteration is the `uart_puts` of the rendering of
`t_f`, so nothing follows the last number. -/
theorem C11_report_text (s : values)
    (b1 : s.humidity_integer < 256) (b2 : s.humidity_decimal < 256)
    (b3 : s.temperature_integer < 256) (b4 : s.temperature_decimal < 256) :
    (main_loop_body s s s s).map uart_text =
      some ("\r\n---Humidity values---:\r\n" ++ decimal s.humidity_integer ++ "." ++
        decimal s.humidity_decimal ++ "\r\n---Temperature values---:\r\n" ++
        decimal s.temperature_integer ++ "." ++ decimal s.temperature_decimal) ∧
    (main_loop_body s s s s).bind List.getLast? =
      some (call.uart_puts (decimal s.temperature_decimal)) := by
  have e1 := itoa_byte s.humidity_integer uart_string b1 (by decide)
  have e2 := itoa_byte s.humidity_decimal uart_string2 b2 (by decide)
  have e3 := itoa_byte s.temperature_integer uart_string3 b3 (by decide)
  have e4 := itoa_byte s.temperature_decimal uart_string4 b4 (by decide)
  unfold main_loop_body
  rw [e1, e2, e3, e4]
  constructor
  · simp [uart_text, String.append_assoc]
  · simp

/-- C11 on the sample `{23, 5, 27, 0}` of Scenario 1. -/
theorem C11_report_text_witness :
    (⟨23, 5, 27, 0⟩ : values).humidity_integer < 256 ∧
    (main_loop_body ⟨23, 5, 27, 0⟩ ⟨23, 5, 27, 0⟩ ⟨23, 5, 27, 0⟩ ⟨23, 5, 27, 0⟩).map uart_text =
      some "\r\n---Humidity values---:\r\n23.5\r\n---Temperature values---:\r\n27.0" :=
  ⟨by decide,
    (C11_report_text ⟨23, 5, 27, 0⟩ (by decide) (by decide) (by decide) (by decide)).1⟩

/-- C12: when the write-direction addressing fails in call `k`, made in
`HUMIDITY_STATE` or in `TEMPERATURE_STATE`, call `k+1` is the transition from
`IDLE_STATE` to `HUMIDITY_STATE` and makes no bus operation, and call `k+2`
runs in `HUMIDITY_STATE` (not `TEMPERATURE_STATE`) and begins with the
write-direction `twi_start`; the globals at call `k+2` are those of call `k`
but for `twi_state`, so nothing counts the failures.  If the addressing keeps
failing, this repeats every two calls, for any number of failures. -/
theorem C12_retry_after_one_tick (h : twi_h) (bus : Nat → twi_reply) (m : Machine) (k : Nat)
    (hs : (run h bus m k).twi_state = HUMIDITY_STATE ∨
      (run h bus m k).twi_state = TEMPERATURE_STATE)
    (hb : (bus k).start_w < 256) (hf : (bus k).start_w ≠ 0) :
    (run h bus m (k + 1)).twi_state = IDLE_STATE ∧
    bus_ops (calls_at h bus m (k + 1)) = [] ∧
    (run h bus m (k + 2)).twi_state = HUMIDITY_STATE ∧
    (run h bus m (k + 2)).twi_state ≠ TEMPERATURE_STATE ∧
    (calls_at h bus m (k + 2)).head? = some (call.twi_start ((DHT12 <<< 1) + h.TWI_WRITE)) ∧
    run h bus m (k + 2) = { run h bus m k with twi_state := HUMIDITY_STATE } ∧
    ((∀ j, k ≤ j → (bus j).start_w < 256 ∧ (bus j).start_w ≠ 0) →
      ∀ n, (run h bus m (k + 1 + 2 * n)).twi_state = IDLE_STATE ∧
        calls_at h bus m (k + 1 + 2 * n) = [] ∧
        (run h bus m (k + 2 + 2 * n)).twi_state = HUMIDITY_STATE ∧
        calls_at h bus m (k + 2 + 2 * n) =
          [ call.twi_start ((DHT12 <<< 1) + h.TWI_WRITE),
            call.uart_puts "Not connected H" ]) := by
  have hr : (bus k).start_w % 256 ≠ 0 := by rw [mod_256_of_byte hb]; exact hf
  obtain ⟨e1, c1, e2⟩ := run_after_fail h bus m k hs hr
  have hhum : (run h bus m (k + 2)).twi_state = HUMIDITY_STATE := by rw [e2]
  refine ⟨by rw [e1], by rw [c1]; rfl, hhum, ?_, ?_, e2, ?_⟩
  · rw [hhum]; decide
  · unfold calls_at
    exact fsm_humidity_head h _ _ hhum
  · intro hall n
    have hrj : ∀ j, k ≤ j → (bus j).start_w % 256 ≠ 0 := fun j hj => by
      rw [mod_256_of_byte (hall j hj).1]; exact (hall j hj).2
    induction n with
    | zero =>
      refine ⟨by rw [e1], c1, hhum, ?_⟩
      show (fsm_twi_scanner h (run h bus m (k + 2)) (bus (k + 2))).calls = _
      rw [fsm_humidity_fail h _ _ hhum (hrj (k + 2) (by omega))]
    | succ n ih =>
      obtain ⟨_, _, ihum, _⟩ := ih
      obtain ⟨f1, d1, f2⟩ :=
        run_after_fail h bus m (k + 2 + 2 * n) (Or.inl ihum) (hrj _ (by omega))
      have a1 : k + 1 + 2 * (n + 1) = k + 2 + 2 * n + 1 := by omega
      have a2 : k + 2 + 2 * (n + 1) = k + 2 + 2 * n + 2 := by omega
      rw [a1, a2]
      have hh2 : (run h bus m (k + 2 + 2 * n + 2)).twi_state = HUMIDITY_STATE := by rw [f2]
      refine ⟨by rw [f1], d1, hh2, ?_⟩
      show (fsm_twi_scanner h (run h bus m (k + 2 + 2 * n + 2)) (bus (k + 2 + 2 * n + 2))).calls
        = _
      rw [fsm_humidity_fail h _ _ hh2 (hrj _ (by omega))]

/-- C12 on a bus whose first cycle reads humidity `(23, 5)` and then fails
in the temperature phase (call `2`), from the initial globals: call `3` is
the idle call and call `4` is a humidity call with the sample `{23, 5, 0, 0}`
kept. -/
theorem C12_retry_after_one_tick_witness :
    ((run twi_h.sample (bus_of [twi_reply.ack 0 0, twi_reply.ack 23 5] (twi_reply.nak 1))
        (Machine.init 0) 2).twi_state = HUMIDITY_STATE ∨
      (run twi_h.sample (bus_of [twi_reply.ack 0 0, twi_reply.ack 23 5] (twi_reply.nak 1))
        (Machine.init 0) 2).twi_state = TEMPERATURE_STATE) ∧
    (bus_of [twi_reply.ack 0 0, twi_reply.ack 23 5] (twi_reply.nak 1) 2).start_w ≠ 0 ∧
    (run twi_h.sample (bus_of [twi_reply.ack 0 0, twi_reply.ack 23 5] (twi_reply.nak 1))
        (Machine.init 0) 3).twi_state = IDLE_STATE ∧
    run twi_h.sample (bus_of [twi_reply.ack 0 0, twi_reply.ack 23 5] (twi_reply.nak 1))
        (Machine.init 0) 4 = ⟨HUMIDITY_STATE, ⟨23, 5, 0, 0⟩, 0⟩ ∧
    calls_at twi_h.sample (bus_of [twi_reply.ack 0 0, twi_reply.ack 23 5] (twi_reply.nak 1))
        (Machine.init 0) (2 + 2 + 2 * 1) =
      [call.twi_start 0xB8, call.uart_puts "Not connected H"] :=
  ⟨by decide, by decide,
    (C12_retry_after_one_tick twi_h.sample
      (bus_of [twi_reply.ack 0 0, twi_reply.ack 23 5] (twi_reply.nak 1)) (Machine.init 0) 2
      (by decide) (by decide) (by decide)).1,
    (C12_retry_after_one_tick twi_h.sample
      (bus_of [twi_reply.ack 0 0, twi_reply.ack 23 5] (twi_reply.nak 1)) (Machine.init 0) 2
      (by decide) (by decide) (by decide)).2.2.2.2.2.1,
    ((C12_retry_after_one_tick twi_h.sample
      (bus_of [twi_reply.ack 0 0, twi_reply.ack 23 5] (twi_reply.nak 1)) (Machine.init 0) 2
      (by decide) (by decide) (by decide)).2.2.2.2.2.2
      (fun j hj => by
        unfold bus_of
        rcases j with _ | _ | j
        · omega
        · omega
        · simp [List.getD, twi_reply.nak])
      1).2.2.2⟩

/-- C13: from the initial globals (`twi_state = IDLE_STATE`, `Meteo_values`
all zero, any `PORTB`), after any number of calls of `fsm_twi_scanner` and for
every bus behaviour, `twi_state` is one of `IDLE_STATE`, `HUMIDITY_STATE`,
`TEMPERATURE_STATE`, `UART_STATE`, that is, a value in `1..4`: no call ever
takes the `default` branch of the switch. -/
theorem C13_default_unreachable (h : twi_h) (bus : Nat → twi_reply) (p n : Nat) :
    ((run h bus (Machine.init p) n).twi_state = IDLE_STATE ∨
      (run h bus (Machine.init p) n).twi_state = HUMIDITY_STATE ∨
      (run h bus (Machine.init p) n).twi_state = TEMPERATURE_STATE ∨
      (run h bus (Machine.init p) n).twi_state = UART_STATE) ∧
    (1 ≤ (run h bus (Machine.init p) n).twi_state ∧
      (run h bus (Machine.init p) n).twi_state ≤ 4) ∧
    ¬ ((run h bus (Machine.init p) n).twi_state ≠ IDLE_STATE ∧
      (run h bus (Machine.init p) n).twi_state ≠ HUMIDITY_STATE ∧
      (run h bus (Machine.init p) n).twi_state ≠ TEMPERATURE_STATE ∧
      (run h bus (Machine.init p) n).twi_state ≠ UART_STATE) := by
  have named : (run h bus (Machine.init p) n).twi_state = IDLE_STATE ∨
      (run h bus (Machine.init p) n).twi_state = HUMIDITY_STATE ∨
      (run h bus (Machine.init p) n).twi_state = TEMPERATURE_STATE ∨
      (run h bus (Machine.init p) n).twi_state = UART_STATE := by
    cases n with
    | zero => exact Or.inl rfl
    | succ n => rw [run_succ]; exact fsm_next_named h _ _
  refine ⟨named, ?_, ?_⟩
  · rcases named with e | e | e | e <;> rw [e] <;> decide
  · rintro ⟨n1, n2, n3, n4⟩
    rcases named with e | e | e | e
    · exact n1 e
    · exact n2 e
    · exact n3 e
    · exact n4 e

/-- C14: for a value of `twi_state` that is none of the four enumerators, a
call of `fsm_twi_scanner` sets `twi_state` to `IDLE_STATE` and does nothing
else: it makes no external call at all (no bus operation, no serial output)
and leaves `Meteo_values` and `PORTB` as they were. -/
theorem C14_unknown_state (h : twi_h) (m : Machine) (r : twi_reply)
    (h1 : m.twi_state ≠ IDLE_STATE) (h2 : m.twi_state ≠ HUMIDITY_STATE)
    (h3 : m.twi_state ≠ TEMPERATURE_STATE) (h4 : m.twi_state ≠ UART_STATE) :
    (fsm_twi_scanner h m r).next.twi_state = IDLE_STATE ∧
    (fsm_twi_scanner h m r).next.Meteo_values = m.Meteo_values ∧
    (fsm_twi_scanner h m r).next.PORTB = m.PORTB ∧
    (fsm_twi_scanner h m r).calls = [] ∧
    bus_ops (fsm_twi_scanner h m r).calls = [] ∧
    uart_text (fsm_twi_scanner h m r).calls = "" := by
  rw [fsm_default h m r h1 h2 h3 h4]
  exact ⟨rfl, rfl, rfl, rfl, rfl, rfl⟩

/-- C14 at the state values `0` and `5`. -/
theorem C14_unknown_state_witness :
    ((⟨0, ⟨23, 5, 27, 0⟩, 0x20⟩ : Machine).twi_state ≠ IDLE_STATE ∧
      fsm_twi_scanner twi_h.sample ⟨0, ⟨23, 5, 27, 0⟩, 0x20⟩ (twi_reply.nak 1) =
        ⟨⟨IDLE_STATE, ⟨23, 5, 27, 0⟩, 0x20⟩, []⟩) ∧
    ((fsm_twi_scanner twi_h.sample ⟨5, ⟨23, 5, 27, 0⟩, 0x20⟩ (twi_reply.ack 1 2)).next.twi_state
        = IDLE_STATE ∧
      (fsm_twi_scanner twi_h.sample ⟨5, ⟨23, 5, 27, 0⟩, 0x20⟩ (twi_reply.ack 1 2)).calls = []) :=
  ⟨⟨by decide, by decide⟩,
    ⟨(C14_unknown_state twi_h.sample ⟨5, ⟨23, 5, 27, 0⟩, 0x20⟩ (twi_reply.ack 1 2)
        (by decide) (by decide) (by decide) (by decide)).1,
      (C14_unknown_state twi_h.sample ⟨5, ⟨23, 5, 27, 0⟩, 0x20⟩ (twi_reply.ack 1 2)
        (by decide) (by decide) (by decide) (by decide)).2.2.2.1⟩⟩

/-- C15: in a `HUMIDITY_STATE` or `TEMPERATURE_STATE` call whose
write-direction `twi_start` returns `0`, replacing the status of `twi_write`
and the status of the read-direction `twi_start` by any values `w` and `s`
changes nothing in the outcome (globals and calls made); whatever those
statuses are, non-zero included, no text goes to the serial link, the two
bytes of `twi_read_ack` and `twi_read_nack` are stored and the state
advances. -/
theorem C15_only_first_start_checked (h : twi_h) (m : Machine) (r : twi_reply) (w s : Nat)
    (hs : m.twi_state = HUMIDITY_STATE ∨ m.twi_state = TEMPERATURE_STATE)
    (hok : r.start_w = 0) (ha : r.read_ack < 256) (hn : r.read_nack < 256) :
    fsm_twi_scanner h m { r with write := w, start_r := s } = fsm_twi_scanner h m r ∧
    uart_text (fsm_twi_scanner h m { r with write := w, start_r := s }).calls = "" ∧
    (m.twi_state = HUMIDITY_STATE →
      (fsm_twi_scanner h m { r with write := w, start_r := s }).next =
        { m with
          Meteo_values :=
            { m.Meteo_values with
              humidity_integer := r.read_ack, humidity_decimal := r.read_nack }
          twi_state := TEMPERATURE_STATE }) ∧
    (m.twi_state = TEMPERATURE_STATE →
      (fsm_twi_scanner h m { r with write := w, start_r := s }).next =
        { m with
          Meteo_values :=
            { m.Meteo_values with
              temperature_integer := r.read_ack, temperature_decimal := r.read_nack }
          twi_state := UART_STATE }) := by
  have hr : r.start_w % 256 = 0 := by rw [hok]
  rw [fsm_ignores_statuses]
  refine ⟨rfl, ?_, ?_, ?_⟩
  · rcases hs with e | e
    · rw [fsm_humidity_ok h m r e hr]; rfl
    · rw [fsm_temperature_ok h m r e hr]; rfl
  · intro e
    rw [fsm_humidity_ok h m r e hr, mod_256_of_byte ha, mod_256_of_byte hn]
  · intro e
    rw [fsm_temperature_ok h m r e hr, mod_256_of_byte ha, mod_256_of_byte hn]

/-- C15 on a humidity call reading `(23, 5)` whose `twi_write` reports `1` and
whose read-direction `twi_start` reports `2`: the bytes are stored, the state
advances, and the outcome is that of the all-zero statuses. -/
theorem C15_only_first_start_checked_witness :
    fsm_twi_scanner twi_h.sample ⟨HUMIDITY_STATE, ⟨0, 0, 0, 0⟩, 0⟩ ⟨0, 1, 2, 23, 5⟩ =
      fsm_twi_scanner twi_h.sample ⟨HUMIDITY_STATE, ⟨0, 0, 0, 0⟩, 0⟩ ⟨0, 0, 0, 23, 5⟩ ∧
    (fsm_twi_scanner twi_h.sample ⟨HUMIDITY_STATE, ⟨0, 0, 0, 0⟩, 0⟩ ⟨0, 1, 2, 23, 5⟩).next =
      ⟨TEMPERATURE_STATE, ⟨23, 5, 0, 0⟩, 0⟩ ∧
    uart_text
      (fsm_twi_scanner twi_h.sample ⟨HUMIDITY_STATE, ⟨0, 0, 0, 0⟩, 0⟩ ⟨0, 1, 2, 23, 5⟩).calls
      = "" :=
  ⟨(C15_only_first_start_checked twi_h.sample ⟨HUMIDITY_STATE, ⟨0, 0, 0, 0⟩, 0⟩
      ⟨0, 0, 0, 23, 5⟩ 1 2 (Or.inl rfl) rfl (by decide) (by decide)).1,
    (C15_only_first_start_checked twi_h.sample ⟨HUMIDITY_STATE, ⟨0, 0, 0, 0⟩, 0⟩
      ⟨0, 0, 0, 23, 5⟩ 1 2 (Or.inl rfl) rfl (by decide) (by decide)).2.2.1 rfl,
    (C15_only_first_start_checked twi_h.sample ⟨HUMIDITY_STATE, ⟨0, 0, 0, 0⟩, 0⟩
      ⟨0, 0, 0, 23, 5⟩ 1 2 (Or.inl rfl) rfl (by decide) (by decide)).2.1⟩

/-- C16: a call in `UART_STATE` touches nothing but the three output bits:
for every 8-bit value of `PORTB` before and every temperature, each bit of
`PORTB` other than PB3, PB4 and PB5 is after the call what it was before,
`Meteo_values` is as before, and the call makes no external call (no bus
operation, no serial output). -/
theorem C16_output_frame (h : twi_h) (m : Machine) (r : twi_reply)
    (hs : m.twi_state = UART_STATE) (hp : m.PORTB < 256) :
    (∀ bit, bit ≠ PB3 → bit ≠ PB4 → bit ≠ PB5 →
      pin_set (fsm_twi_scanner h m r).next.PORTB bit = pin_set m.PORTB bit) ∧
    (fsm_twi_scanner h m r).next.Meteo_values = m.Meteo_values ∧
    (fsm_twi_scanner h m r).calls = [] ∧
    bus_ops (fsm_twi_scanner h m r).calls = [] ∧
    uart_text (fsm_twi_scanner h m r).calls = "" := by
  rw [fsm_uart h m r hs]
  refine ⟨?_, rfl, rfl, rfl, rfl⟩
  intro bit n3 n4 n5
  show pin_set (apply_output m.Meteo_values.temperature_integer m.PORTB) bit
    = pin_set m.PORTB bit
  rw [pin_set_eq_testBit, pin_set_eq_testBit, testBit_apply_output]
  simp only [n3, n4, n5, if_false]
  by_cases h8 : bit < 8
  · simp [h8]
  · have hpow : (2 : Nat) ^ 8 ≤ 2 ^ bit := Nat.pow_le_pow_right (by decide) (by omega)
    have hlt : m.PORTB < 2 ^ bit := by
      have h256 : (2 : Nat) ^ 8 = 256 := by norm_num
      omega
    rw [Nat.testBit_lt_two_pow hlt]
    simp [h8]

/-- C16 at temperature 35 on `PORTB = 0xFF`: the register becomes `0xD7`, its
bits 0, 1, 2, 6 and 7 still set. -/
theorem C16_output_frame_witness :
    (Machine.at_output 35 0xFF).twi_state = UART_STATE ∧
    (Machine.at_output 35 0xFF).PORTB < 256 ∧
    (fsm_twi_scanner twi_h.sample (Machine.at_output 35 0xFF) (twi_reply.ack 0 0)).next.PORTB
      = 0xD7 ∧
    pin_set (fsm_twi_scanner twi_h.sample (Machine.at_output 35 0xFF)
      (twi_reply.ack 0 0)).next.PORTB 7 = true ∧
    (fsm_twi_scanner twi_h.sample (Machine.at_output 35 0xFF)
      (twi_reply.ack 0 0)).next.Meteo_values = ⟨23, 5, 35, 0⟩ :=
  ⟨rfl, by decide, by decide,
    (C16_output_frame twi_h.sample (Machine.at_output 35 0xFF) (twi_reply.ack 0 0) rfl
      (by decide)).1 7 (by decide) (by decide) (by decide),
    (C16_output_frame twi_h.sample (Machine.at_output 35 0xFF) (twi_reply.ack 0 0) rfl
      (by decide)).2.1⟩

/-- C17: for every temperature exactly one of the three conditions
`t <= 28`, `t > 28 && t < 40`, `t >= 40` holds (they exclude each other
pairwise and one of them always holds), so exactly one of the three `if`
bodies runs, and the three separate `if` statements give the same `PORTB` as
the single `if` / `else if` / `else` chain over the same bodies. -/
theorem C17_three_ifs_are_a_chain (t p : Nat) :
    ¬ (t ≤ 28 ∧ (t > 28 ∧ t < 40)) ∧
    ¬ (t ≤ 28 ∧ t ≥ 40) ∧
    ¬ ((t > 28 ∧ t < 40) ∧ t ≥ 40) ∧
    (t ≤ 28 ∨ (t > 28 ∧ t < 40) ∨ t ≥ 40) ∧
    bodies_run t = 1 ∧
    apply_output t p = apply_output_chain t p := by
  refine ⟨by omega, by omega, by omega, by omega, ?_, ?_⟩
  · unfold bodies_run
    by_cases h1 : t ≤ 28
    · have h2 : ¬ (t > 28 ∧ t < 40) := by omega
      have h3 : ¬ (t ≥ 40) := by omega
      simp only [h1, h2, h3, if_true, if_false]
    · by_cases h2 : t > 28 ∧ t < 40
      · have h3 : ¬ (t ≥ 40) := by omega
        simp only [h1, h2, h3, and_self, if_true, if_false]
      · have h3 : t ≥ 40 := by omega
        simp only [h1, h2, h3, if_true, if_false]
  · unfold apply_output apply_output_chain
    by_cases h1 : t ≤ 28
    · have h2 : ¬ (t > 28 ∧ t < 40) := by omega
      have h3 : ¬ (t ≥ 40) := by omega
      simp only [h1, h2, h3, if_true, if_false]
    · by_cases h2 : t > 28 ∧ t < 40
      · have h3 : ¬ (t ≥ 40) := by omega
        simp only [h1, h2, h3, and_self, if_true, if_false]
      · have h3 : t ≥ 40 := by omega
        simp only [h1, h2, h3, if_true, if_false]

/-- C18: for every byte `v`, `itoa(v, buf, 10)` writes the decimal rendering
of `v`: between one and three characters, all of them digits, none a minus
sign; with the terminating NUL that is at most four bytes, which fit in
`uart_string` (five bytes), the smallest of the four conversion buffers, so
the conversion into each of the four buffers completes. -/
theorem C18_itoa_fits (v : Nat) (hv : v < 256) :
    itoa_chars (v : Nat) 10 = some (decimal v).data ∧
    1 ≤ (decimal v).length ∧ (decimal v).length ≤ 3 ∧
    (decimal v).data.all Char.isDigit = true ∧
    '-' ∉ (decimal v).data ∧
    (decimal v).length + 1 ≤ 4 ∧
    4 ≤ uart_string ∧ uart_string ≤ uart_string2 ∧ uart_string ≤ uart_string3 ∧
    uart_string ≤ uart_string4 ∧
    itoa (v : Nat) uart_string 10 = some (decimal v) ∧
    itoa (v : Nat) uart_string2 10 = some (decimal v) ∧
    itoa (v : Nat) uart_string3 10 = some (decimal v) ∧
    itoa (v : Nat) uart_string4 10 = some (decimal v) := by
  obtain ⟨e, l1, l3, dg, ns⟩ := itoa_chars_byte v hv
  refine ⟨e, l1, l3, dg, ns, by omega, by decide, by decide, by decide, by decide,
    itoa_byte v _ hv (by decide), itoa_byte v _ hv (by decide),
    itoa_byte v _ hv (by decide), itoa_byte v _ hv (by decide)⟩

/-- C18 at the largest byte: `255` is rendered with three digits and does not
fit in a buffer of three bytes. -/
theorem C18_itoa_fits_witness :
    (255 : Nat) < 256 ∧
    itoa (255 : Nat) uart_string 10 = some "255" ∧
    (decimal 255).length = 3 ∧
    itoa (255 : Nat) 3 10 = none :=
  ⟨by decide, (C18_itoa_fits 255 (by decide)).2.2.2.2.2.2.2.2.2.2.1, by decide, by decide⟩

end DHT12Fsm
